import Mathlib

/-!
Verification development for the YAPI MCP server repository
(mcp-servers-monorepo, package src/yapi).

The development shallowly embeds the request/response bridge:
  * the zod argument and response schemas (src/yapi/src/schemas.ts),
  * the backend client `YapiService` (src/yapi/src/yapiService.ts),
  * the tool dispatcher (src/yapi/src/mcp_server.ts), and
  * the streamable HTTP endpoint routing (src/yapi/src/transports/streamableHttp.ts).

JSON values are modelled by an inductive `Json`; JavaScript numbers are
modelled as integers (every numeric value appearing in the embedded code
paths is integral, so the zod `.int()` check cannot fail in the model).
External platform primitives (fetch, `JSON.parse` on free-form strings,
WHATWG `new URL`) are passed in as explicit function parameters.
-/

/-- JSON value, as produced by parsing a response body. -/
inductive Json where
  | null : Json
  | bool (b : Bool) : Json
  | num (n : Int) : Json
  | str (s : String) : Json
  | arr (xs : List Json) : Json
  | obj (fields : List (String × Json)) : Json
deriving Repr

/-- First binding of a key in an object field list (JS property lookup). -/
def lookupField : List (String × Json) → String → Option Json
  | [], _ => none
  | (k, v) :: rest, key => if k = key then some v else lookupField rest key

/-- Property access `o[k]` on a JSON value: defined only on objects. -/
def jsonLookup (v : Json) (k : String) : Option Json :=
  match v with
  | .obj fs => lookupField fs k
  | _ => none

/-- Name zod reports for the parsed type of a value (its `parsedType`). -/
def typeName : Json → String
  | .null => "null"
  | .bool _ => "boolean"
  | .num _ => "number"
  | .str _ => "string"
  | .arr _ => "array"
  | .obj _ => "object"

/-- JavaScript truthiness of a JSON value. -/
def truthy : Json → Bool
  | .null => false
  | .bool b => b
  | .num n => n != 0
  | .str s => s != ""
  | .arr _ => true
  | .obj _ => true

/-- JavaScript truthiness where `none` stands for `undefined`. -/
def truthyOpt : Option Json → Bool
  | none => false
  | some v => truthy v

/-- JavaScript string coercion of a value, as in a template literal.
Arrays stringify their elements joined by commas; objects print as
the generic object tag. -/
def jsString : Json → String
  | .null => "null"
  | .bool true => "true"
  | .bool false => "false"
  | .num n => toString n
  | .str s => s
  | .obj _ => "[object Object]"
  | .arr xs => String.intercalate "," (xs.attach.map (fun x => jsString x.1))
decreasing_by
  have := List.sizeOf_lt_of_mem x.2
  simp only [Json.arr.sizeOf_spec]
  omega

/-- JavaScript `a || fallback` where `a` is a possibly absent JSON value and
the result is used as a string (the fallback is already a string). -/
def jsOrElseStr (v : Option Json) (fallback : String) : String :=
  match v with
  | some w => if truthy w then jsString w else fallback
  | none => fallback

/-- JavaScript `s.join(sep)` on a list of strings. -/
def joinSep (sep : String) : List String → String
  | [] => ""
  | [x] => x
  | x :: y :: xs => x ++ sep ++ joinSep sep (y :: xs)

/-- One character of a JSON string literal, escaped as JSON.stringify does
for the characters exercised here (quote, backslash and common controls). -/
def escapeChar (c : Char) : String :=
  if c = '"' then "\\\""
  else if c = '\\' then "\\\\"
  else if c = '\n' then "\\n"
  else if c = '\t' then "\\t"
  else if c = '\r' then "\\r"
  else String.singleton c

/-- JSON string literal body escaping. -/
def escapeStr (s : String) : String :=
  String.join (s.data.map escapeChar)

/-- Indentation of `n` spaces, two per nesting level as in
`JSON.stringify(data, null, 2)`. -/
def indentStr (n : Nat) : String :=
  String.join (List.replicate n " ")

mutual

/-- Model of `JSON.stringify(v, null, 2)` at nesting depth `d`. -/
def stringifyPretty (d : Nat) : Json → String
  | .null => "null"
  | .bool true => "true"
  | .bool false => "false"
  | .num n => toString n
  | .str s => "\"" ++ escapeStr s ++ "\""
  | .arr [] => "[]"
  | .arr (x :: xs) =>
    "[\n" ++ joinSep ",\n" (stringifyItems (d + 1) (x :: xs)) ++ "\n" ++ indentStr (2 * d) ++ "]"
  | .obj [] => "\x7b\x7d"
  | .obj (f :: fs) =>
    "\x7b\n" ++ joinSep ",\n" (stringifyFields (d + 1) (f :: fs)) ++ "\n" ++ indentStr (2 * d) ++ "\x7d"

/-- Array elements of a pretty-printed JSON document. -/
def stringifyItems (d : Nat) : List Json → List String
  | [] => []
  | x :: xs => (indentStr (2 * d) ++ stringifyPretty d x) :: stringifyItems d xs

/-- Object entries of a pretty-printed JSON document. -/
def stringifyFields (d : Nat) : List (String × Json) → List String
  | [] => []
  | (k, v) :: fs =>
    (indentStr (2 * d) ++ "\"" ++ escapeStr k ++ "\": " ++ stringifyPretty d v) :: stringifyFields d fs

end

/-! ## Zod validation core

The schemas in src/yapi/src/schemas.ts are zod object schemas. Validation
of a JSON value against a schema accumulates a list of issues, each with a
path and a message, and produces the transformed output value (zod strips
unknown keys unless the object schema is marked `.passthrough()`, and
injects declared defaults for absent fields). -/

/-- One component of a zod issue path: an object key or an array index. -/
inductive PathElem where
  | key (k : String) : PathElem
  | idx (i : Nat) : PathElem
deriving DecidableEq, Repr

/-- Rendering of a path component by JavaScript `Array.prototype.join`. -/
def pathElemStr : PathElem → String
  | .key k => k
  | .idx i => toString i

/-- Issue path rendered as `path.join(".")`. -/
def pathJoin (p : List PathElem) : String :=
  joinSep "." (p.map pathElemStr)

/-- One zod validation issue. -/
structure ZIssue where
  path : List PathElem
  message : String
deriving DecidableEq, Repr

/-- Type of a checker for one zod schema: given the path so far and the
value, it yields the issues and the transformed output value (the output
is meaningful only when the issue list is empty). -/
def Chk : Type := List PathElem → Json → List ZIssue × Json

/-- Message of a zod `invalid_type` issue. -/
def expectedMsg (exp : String) (v : Json) : String :=
  "Expected " ++ exp ++ ", received " ++ typeName v

/-- Checker for `z.number()`. -/
def cNum : Chk := fun p v =>
  match v with
  | .num _ => ([], v)
  | _ => ([⟨p, expectedMsg "number" v⟩], v)

/-- Checker for `z.string()`. -/
def cStr : Chk := fun p v =>
  match v with
  | .str _ => ([], v)
  | _ => ([⟨p, expectedMsg "string" v⟩], v)

/-- Checker for `z.boolean()`. -/
def cBool : Chk := fun p v =>
  match v with
  | .bool _ => ([], v)
  | _ => ([⟨p, expectedMsg "boolean" v⟩], v)

/-- Checker for `z.unknown()`: accepts anything. -/
def cUnknown : Chk := fun _ v => ([], v)

/-- List of allowed values rendered as zod renders an enum expectation. -/
def enumExpected (vals : List String) : String :=
  joinSep " | " (vals.map (fun s => "'" ++ s ++ "'"))

/-- Checker for `z.enum([...])`. -/
def cEnum (vals : List String) : Chk := fun p v =>
  match v with
  | .str s =>
    if vals.contains s then ([], v)
    else ([⟨p, "Invalid enum value. Expected " ++ enumExpected vals ++ ", received '" ++ s ++ "'"⟩], v)
  | _ => ([⟨p, "Expected " ++ enumExpected vals ++ ", received " ++ typeName v⟩], v)

/-- Checker for `z.array(elem)`: validates each element at its index. -/
def cArr (elem : Chk) : Chk := fun p v =>
  match v with
  | .arr xs =>
    let rs := (xs.enum.map (fun ix => elem (p ++ [.idx ix.1]) ix.2))
    ((rs.map Prod.fst).flatten, .arr (rs.map Prod.snd))
  | _ => ([⟨p, expectedMsg "array" v⟩], v)

/-- Result of checking one declared object field: its issues and the entries
it contributes to the output object. -/
def FieldRes : Type := List ZIssue × List (String × Json)

/-- Required field of a zod object schema. -/
def fReq (p : List PathElem) (fs : List (String × Json)) (k : String) (chk : Chk) : FieldRes :=
  match lookupField fs k with
  | some v =>
    let r := chk (p ++ [.key k]) v
    (r.1, [(k, r.2)])
  | none => ([⟨p ++ [.key k], "Required"⟩], [])

/-- Field declared `.optional()`: absent is fine and contributes nothing. -/
def fOpt (p : List PathElem) (fs : List (String × Json)) (k : String) (chk : Chk) : FieldRes :=
  match lookupField fs k with
  | some v =>
    let r := chk (p ++ [.key k]) v
    (r.1, [(k, r.2)])
  | none => ([], [])

/-- Field declared `.optional().nullable()`: absent is fine, null passes
through, anything else is checked. -/
def fOptNull (p : List PathElem) (fs : List (String × Json)) (k : String) (chk : Chk) : FieldRes :=
  match lookupField fs k with
  | some .null => ([], [(k, .null)])
  | some v =>
    let r := chk (p ++ [.key k]) v
    (r.1, [(k, r.2)])
  | none => ([], [])

/-- Field declared with `.default(d)`: absent yields the default. -/
def fDef (p : List PathElem) (fs : List (String × Json)) (k : String) (chk : Chk) (d : Json) : FieldRes :=
  match lookupField fs k with
  | some v =>
    let r := chk (p ++ [.key k]) v
    (r.1, [(k, r.2)])
  | none => ([], [(k, d)])

/-- The `required` flag field of the request-part schemas, declared as
`z.string().optional().refine(v => v === '1' || v === '0').nullable()`:
null passes (nullable wraps the effect), an absent value reaches the
refinement as undefined and fails it, a string passes only when it is
exactly "1" or "0", and a non-string fails the inner type check. -/
def fReqFlag (p : List PathElem) (fs : List (String × Json)) (k : String) : FieldRes :=
  match lookupField fs k with
  | some .null => ([], [(k, .null)])
  | some (.str s) =>
    if s = "1" || s = "0" then ([], [(k, .str s)])
    else ([⟨p ++ [.key k], "Required must be '1' or '0'"⟩], [(k, .str s)])
  | some v => ([⟨p ++ [.key k], expectedMsg "string" v⟩], [(k, v)])
  | none => ([⟨p ++ [.key k], "Required must be '1' or '0'"⟩], [])

/-- Assembles an object checker result from its per-field results: issues in
shape-declaration order; output from the declared fields, followed by the
unrecognized input entries when the schema is `.passthrough()` (zod default
mode strips them). -/
def buildObj (rs : List FieldRes) (fs : List (String × Json)) (known : List String)
    (pass : Bool) : List ZIssue × Json :=
  ((rs.map Prod.fst).flatten,
   .obj ((rs.map Prod.snd).flatten ++ (if pass then fs.filter (fun kv => !(known.contains kv.1)) else [])))

/-! ## Argument schemas (schemas.ts, input argument section)

`GetInterfaceDetailsArgsSchema`, `ListInterfacesByCategoryArgsSchema` and
the two empty-argument schemas, embedded as parse functions that either
yield the parsed arguments (with declared defaults applied) or the full
list of accumulated issues, as `Schema.parse(args)` throws them in a
`ZodError`. The argument value is `none` when the protocol request carried
no `arguments` member (JavaScript `undefined`). -/

/-- Check of one `z.number().int().positive()` argument value (the `.int()`
refinement cannot fail on integer-modelled numbers). -/
def checkPosInt (p : List PathElem) (v : Json) : List ZIssue :=
  match v with
  | .num n => if n > 0 then [] else [⟨p, "Number must be greater than 0"⟩]
  | _ => [⟨p, expectedMsg "number" v⟩]

/-- Required `z.number().int().positive()` object field: the issues and the
parsed value (meaningful only when there are no issues). -/
def posIntField (fs : List (String × Json)) (k : String) : List ZIssue × Int :=
  match lookupField fs k with
  | some (.num n) => (checkPosInt [.key k] (.num n), n)
  | some v => (checkPosInt [.key k] v, 0)
  | none => ([⟨[.key k], "Required"⟩], 0)

/-- Optional `z.number().int().positive().optional().default(d)` field. -/
def posIntFieldDefault (fs : List (String × Json)) (k : String) (d : Int) : List ZIssue × Int :=
  match lookupField fs k with
  | some (.num n) => (checkPosInt [.key k] (.num n), n)
  | some v => (checkPosInt [.key k] v, 0)
  | none => ([], d)

/-- Parse function of `GetInterfaceDetailsArgsSchema`
(`z.object(\x7b interface_id: z.number().int().positive() \x7d)`). -/
def GetInterfaceDetailsArgsSchemaParse (args : Option Json) : Except (List ZIssue) Int :=
  match args with
  | none => .error [⟨[], "Required"⟩]
  | some (.obj fs) =>
    match posIntField fs "interface_id" with
    | ([], n) => .ok n
    | (issues, _) => .error issues
  | some v => .error [⟨[], expectedMsg "object" v⟩]

/-- Parse function of `ListInterfacesByCategoryArgsSchema`: required
positive `category_id`, optional positive `page` defaulting to 1 and
`limit` defaulting to 10; every violated field is reported. -/
def ListInterfacesByCategoryArgsSchemaParse (args : Option Json) :
    Except (List ZIssue) (Int × Int × Int) :=
  match args with
  | none => .error [⟨[], "Required"⟩]
  | some (.obj fs) =>
    let c := posIntField fs "category_id"
    let p := posIntFieldDefault fs "page" 1
    let l := posIntFieldDefault fs "limit" 10
    match c.1 ++ p.1 ++ l.1 with
    | [] => .ok (c.2, p.2, l.2)
    | issues => .error issues
  | some v => .error [⟨[], expectedMsg "object" v⟩]

/-- Parse function of the two empty-argument schemas
(`GetProjectInterfaceMenuArgsSchema` and `GetProjectInfoArgsSchema`,
both `z.object(\x7b\x7d)`): any object passes, anything else is a type
issue, and an absent argument value is rejected as required. -/
def EmptyArgsSchemaParse (args : Option Json) : Except (List ZIssue) Unit :=
  match args with
  | none => .error [⟨[], "Required"⟩]
  | some (.obj _) => .ok ()
  | some v => .error [⟨[], expectedMsg "object" v⟩]

/-! ## Response schemas (schemas.ts, YAPI response section)

Checkers for the response data schemas and the full response wrapper
schemas, transcribed field by field from schemas.ts. -/

/-- Checker for `YapiReqParamSchema` (passthrough object). -/
def YapiReqParamSchemaChk : Chk := fun p v =>
  match v with
  | .obj fs =>
    buildObj
      [fOpt p fs "_id" cStr,
       fReq p fs "name" cStr,
       fOptNull p fs "desc" cStr,
       fOptNull p fs "example" cStr]
      fs ["_id", "name", "desc", "example"] true
  | _ => ([⟨p, expectedMsg "object" v⟩], v)

/-- Checker for `YapiReqHeaderSchema` (`YapiReqParamSchema.extend` with the
required flag, an optional nullable value and a type defaulting to text). -/
def YapiReqHeaderSchemaChk : Chk := fun p v =>
  match v with
  | .obj fs =>
    buildObj
      [fOpt p fs "_id" cStr,
       fReq p fs "name" cStr,
       fOptNull p fs "desc" cStr,
       fOptNull p fs "example" cStr,
       fReqFlag p fs "required",
       fOptNull p fs "value" cStr,
       fDef p fs "type" cStr (.str "text")]
      fs ["_id", "name", "desc", "example", "required", "value", "type"] true
  | _ => ([⟨p, expectedMsg "object" v⟩], v)

/-- Checker for `YapiReqBodyFormSchema` (extend with required flag and
defaulted type). -/
def YapiReqBodyFormSchemaChk : Chk := fun p v =>
  match v with
  | .obj fs =>
    buildObj
      [fOpt p fs "_id" cStr,
       fReq p fs "name" cStr,
       fOptNull p fs "desc" cStr,
       fOptNull p fs "example" cStr,
       fReqFlag p fs "required",
       fDef p fs "type" cStr (.str "text")]
      fs ["_id", "name", "desc", "example", "required", "type"] true
  | _ => ([⟨p, expectedMsg "object" v⟩], v)

/-- Checker for `YapiReqQuerySchema` (same shape as the body form schema). -/
def YapiReqQuerySchemaChk : Chk := fun p v =>
  match v with
  | .obj fs =>
    buildObj
      [fOpt p fs "_id" cStr,
       fReq p fs "name" cStr,
       fOptNull p fs "desc" cStr,
       fOptNull p fs "example" cStr,
       fReqFlag p fs "required",
       fDef p fs "type" cStr (.str "text")]
      fs ["_id", "name", "desc", "example", "required", "type"] true
  | _ => ([⟨p, expectedMsg "object" v⟩], v)

/-- Checker for the inner `query_path` object of the detail schema
(`z.object(\x7b path, params \x7d)`, default strip mode). -/
def queryPathChk : Chk := fun p v =>
  match v with
  | .obj fs =>
    buildObj
      [fReq p fs "path" cStr,
       fReq p fs "params" (cArr cUnknown)]
      fs ["path", "params"] false
  | _ => ([⟨p, expectedMsg "object" v⟩], v)

/-- Checker for `YapiInterfaceDetailDataSchema`: the detailed data of one
interface, a passthrough object whose required fields are `_id`, `method`,
`catid`, `title`, `path`, `project_id`, `uid`, `add_time` and `up_time`. -/
def YapiInterfaceDetailDataSchemaChk : Chk := fun p v =>
  match v with
  | .obj fs =>
    buildObj
      [fOpt p fs "query_path" queryPathChk,
       fOptNull p fs "edit_uid" cNum,
       fOpt p fs "status" (cEnum ["done", "undone", "design"]),
       fOpt p fs "type" cStr,
       fOpt p fs "req_body_is_json_schema" cBool,
       fOpt p fs "res_body_is_json_schema" cBool,
       fOpt p fs "api_opened" cBool,
       fOpt p fs "index" cNum,
       fOpt p fs "tag" (cArr cStr),
       fReq p fs "_id" cNum,
       fReq p fs "method" cStr,
       fReq p fs "catid" cNum,
       fReq p fs "title" cStr,
       fReq p fs "path" cStr,
       fReq p fs "project_id" cNum,
       fReq p fs "uid" cNum,
       fReq p fs "add_time" cNum,
       fReq p fs "up_time" cNum,
       fOpt p fs "req_query" (cArr YapiReqQuerySchemaChk),
       fOpt p fs "req_headers" (cArr YapiReqHeaderSchemaChk),
       fOpt p fs "req_params" (cArr YapiReqParamSchemaChk),
       fOptNull p fs "req_body_type" (cEnum ["raw", "form", "json"]),
       fOpt p fs "req_body_form" (cArr YapiReqBodyFormSchemaChk),
       fOptNull p fs "req_body_other" cStr,
       fOptNull p fs "res_body_type" (cEnum ["json", "raw", "xml"]),
       fOptNull p fs "res_body" cStr,
       fOptNull p fs "desc" cStr,
       fOptNull p fs "markdown" cStr,
       fOpt p fs "username" cStr]
      fs
      ["query_path", "edit_uid", "status", "type", "req_body_is_json_schema",
       "res_body_is_json_schema", "api_opened", "index", "tag", "_id", "method",
       "catid", "title", "path", "project_id", "uid", "add_time", "up_time",
       "req_query", "req_headers", "req_params", "req_body_type", "req_body_form",
       "req_body_other", "res_body_type", "res_body", "desc", "markdown", "username"]
      true
  | _ => ([⟨p, expectedMsg "object" v⟩], v)

/-- Checker for `YapiInterfaceListItemSchema` (passthrough). -/
def YapiInterfaceListItemSchemaChk : Chk := fun p v =>
  match v with
  | .obj fs =>
    buildObj
      [fOptNull p fs "edit_uid" cNum,
       fOpt p fs "status" (cEnum ["done", "undone", "design"]),
       fOpt p fs "api_opened" cBool,
       fOpt p fs "tag" (cArr cStr),
       fReq p fs "_id" cNum,
       fReq p fs "method" cStr,
       fReq p fs "catid" cNum,
       fReq p fs "title" cStr,
       fReq p fs "path" cStr,
       fReq p fs "project_id" cNum,
       fReq p fs "uid" cNum,
       fReq p fs "add_time" cNum,
       fReq p fs "up_time" cNum]
      fs
      ["edit_uid", "status", "api_opened", "tag", "_id", "method", "catid",
       "title", "path", "project_id", "uid", "add_time", "up_time"]
      true
  | _ => ([⟨p, expectedMsg "object" v⟩], v)

/-- Checker for `YapiListCatDataSchema` (strip mode: count, total, list). -/
def YapiListCatDataSchemaChk : Chk := fun p v =>
  match v with
  | .obj fs =>
    buildObj
      [fReq p fs "count" cNum,
       fReq p fs "total" cNum,
       fReq p fs "list" (cArr YapiInterfaceListItemSchemaChk)]
      fs ["count", "total", "list"] false
  | _ => ([⟨p, expectedMsg "object" v⟩], v)

/-- Checker for `YapiCategorySchema` (passthrough). -/
def YapiCategorySchemaChk : Chk := fun p v =>
  match v with
  | .obj fs =>
    buildObj
      [fOpt p fs "index" cNum,
       fReq p fs "_id" cNum,
       fReq p fs "name" cStr,
       fReq p fs "project_id" cNum,
       fOptNull p fs "desc" cStr,
       fReq p fs "uid" cNum,
       fReq p fs "add_time" cNum,
       fReq p fs "up_time" cNum,
       fOpt p fs "list" (cArr YapiInterfaceListItemSchemaChk)]
      fs
      ["index", "_id", "name", "project_id", "desc", "uid", "add_time", "up_time", "list"]
      true
  | _ => ([⟨p, expectedMsg "object" v⟩], v)

/-- Checker for `YapiMenuDataSchema` (`z.array(YapiCategorySchema)`). -/
def YapiMenuDataSchemaChk : Chk := cArr YapiCategorySchemaChk

/-- Checker for the environment entries of `YapiProjectSchema`. -/
def projectEnvChk : Chk := fun p v =>
  match v with
  | .obj fs =>
    buildObj
      [fReq p fs "name" cStr,
       fReq p fs "domain" cStr]
      fs ["name", "domain"] true
  | _ => ([⟨p, expectedMsg "object" v⟩], v)

/-- Checker for `YapiProjectSchema` (passthrough). -/
def YapiProjectSchemaChk : Chk := fun p v =>
  match v with
  | .obj fs =>
    buildObj
      [fOpt p fs "switch_notice" cBool,
       fOpt p fs "is_mock_open" cBool,
       fOpt p fs "strice" cBool,
       fOpt p fs "is_json5" cBool,
       fReq p fs "_id" cNum,
       fReq p fs "name" cStr,
       fOptNull p fs "desc" cStr,
       fOptNull p fs "basepath" cStr,
       fOpt p fs "project_type" cStr,
       fReq p fs "uid" cNum,
       fReq p fs "group_id" cNum,
       fOpt p fs "icon" cStr,
       fOpt p fs "color" cStr,
       fReq p fs "add_time" cNum,
       fReq p fs "up_time" cNum,
       fOpt p fs "env" (cArr projectEnvChk),
       fOptNull p fs "role" cStr]
      fs
      ["switch_notice", "is_mock_open", "strice", "is_json5", "_id", "name",
       "desc", "basepath", "project_type", "uid", "group_id", "icon", "color",
       "add_time", "up_time", "env", "role"]
      true
  | _ => ([⟨p, expectedMsg "object" v⟩], v)

/-- Checker for the response wrapper schemas: `YapiBaseResponseSchema`
(`errcode: z.number(), errmsg: z.string()`, default strip mode) extended
with a `data` field validated by the given data checker, exactly as each
`...ResponseSchema` in schemas.ts extends the base schema. -/
def YapiResponseSchemaChk (dataChk : Chk) (v : Json) : List ZIssue × Json :=
  match v with
  | .obj fs =>
    buildObj
      [fReq [] fs "errcode" cNum,
       fReq [] fs "errmsg" cStr,
       fReq [] fs "data" dataChk]
      fs ["errcode", "errmsg", "data"] false
  | _ => ([⟨[], expectedMsg "object" v⟩], v)

/-! ## Errors (errors.ts) and the backend HTTP model

`YapiError` carries an optional business code (any JSON value, as the
source passes `responseData.errcode` through untyped), an optional HTTP
status, the response body it captured, and — for response-shape failures —
the zod issues. `ConfigurationError` carries only a message. The fetch
boundary is a function from the request URL and query to an outcome. -/

/-- The `YapiError` class of errors.ts. -/
structure YapiError where
  message : String
  errcode : Option Json := none
  status : Option Nat := none
  responseBody : Option Json := none
  zodIssues : List ZIssue := []
deriving Repr

/-- The `ConfigurationError` class of errors.ts. -/
structure ConfigurationError where
  message : String
deriving DecidableEq, Repr

/-- An HTTP response as observed through the fetch API: status, status
text, the content-type header, the body parsed as JSON when that parse
succeeds, and the body as text. -/
structure HttpResponse where
  status : Nat
  statusText : String := ""
  contentType : Option String := some "application/json"
  jsonBody : Option Json := none
  textBody : String := ""

/-- The fetch `Response.ok` flag: status in the 2xx range. -/
def HttpResponse.isOk (r : HttpResponse) : Bool :=
  decide (200 ≤ r.status) && decide (r.status < 300)

/-- Substring occurrence on character lists (JavaScript `includes`). -/
def listIncludes (needle : List Char) : List Char → Bool
  | [] => needle.isEmpty
  | c :: cs => needle.isPrefixOf (c :: cs) || listIncludes needle cs

/-- JavaScript `contentType && contentType.includes("application/json")`. -/
def ctIncludesJson : Option String → Bool
  | none => false
  | some ct => listIncludes "application/json".data ct.data

/-- Outcome of one fetch call: a response, or a network failure (the fetch
promise rejecting). -/
inductive FetchOutcome where
  | resp (r : HttpResponse)
  | netErr (message : String)

/-- The backend as seen through fetch: a function from request URL and
query parameters to the outcome of the round trip. -/
def Backend : Type := String → List (String × String) → FetchOutcome

/-- One backend HTTP call issued: its URL and query-string parameters. -/
structure BackendCall where
  url : String
  query : List (String × String)
deriving Repr

/-- Query string assembled by `YapiService.request` for a GET call: the
token first, then each defined parameter stringified, in order. -/
def buildQuery (token : String) (params : List (String × Option Int)) :
    List (String × String) :=
  ("token", token) :: params.filterMap (fun kv => kv.2.map (fun n => (kv.1, toString n)))

/-- The body-acquisition step of `YapiService.request`: when the content
type includes `application/json` the body must parse as JSON (a failed
parse is a `YapiError` carrying the status and a fragment of the text
body); a non-JSON content type is always a `YapiError`, with the failing
status for a non-ok response and an unexpected-content message otherwise. -/
def acquireBody (apiPath : String) (r : HttpResponse) : Except YapiError Json :=
  if ctIncludesJson r.contentType then
    match r.jsonBody with
    | some d => .ok d
    | none =>
      .error
        { message := "Failed to parse JSON response from YAPI. Status: " ++ toString r.status
            ++ ". Response body fragment: " ++ r.textBody.take 100
          status := some r.status
          responseBody := some (.str r.textBody) }
  else
    if !r.isOk then
      .error
        { message := "YAPI request failed with non-JSON response. Status: " ++ toString r.status
            ++ ". Body: " ++ r.textBody
          status := some r.status
          responseBody := some (.str r.textBody) }
    else
      .error
        { message := "Received unexpected non-JSON response from YAPI for " ++ apiPath
            ++ ". Content-Type: " ++ (match r.contentType with | some ct => ct | none => "null")
          status := some r.status
          responseBody := some (.str r.textBody) }

/-- The business-error test of `YapiService.request`:
`responseData && typeof responseData === 'object' && 'errcode' in responseData
&& responseData.errcode !== 0`. Arrays have no `errcode` own property and
null fails the truthiness guard, so only object bodies can qualify. -/
def isBusinessErrorBody (responseData : Json) : Bool :=
  match responseData with
  | .obj fs =>
    match lookupField fs "errcode" with
    | some (.num n) => n != 0
    | some _ => true
    | none => false
  | _ => false

/-- Message list of a response-shape failure:
`parsed.error.errors.map(e => `Path: ..., Message: ...`).join('; ')`. -/
def validationDetails (issues : List ZIssue) : String :=
  joinSep "; " (issues.map (fun e => "Path: " ++ pathJoin e.path ++ ", Message: " ++ e.message))

/-- Template-literal rendering of a possibly absent value
(JavaScript prints `undefined` for a missing property). -/
def jsStringOpt : Option Json → String
  | none => "undefined"
  | some v => jsString v

/-- The generic `YapiService.request` method for a GET operation (every
operation of the service is a GET; the POST branch of the source is not
reachable from them). It issues the fetch, acquires the parsed body,
classifies a non-2xx status, then a non-zero business `errcode`, then
validates the full response shape, and otherwise returns the validated
response. A rejected fetch is wrapped as a network `YapiError`. The list
of backend calls issued is returned alongside. -/
def YapiService.request (apiBase token : String) (backend : Backend) (apiPath : String)
    (schemaChk : Json → List ZIssue × Json) (params : List (String × Option Int)) :
    Except YapiError Json × List BackendCall :=
  let url := apiBase ++ apiPath
  let query := buildQuery token params
  let call : BackendCall := ⟨url, query⟩
  match backend url query with
  | .netErr msg =>
    (.error { message := "Network or fetch error during request to " ++ apiPath ++ ": " ++ msg },
     [call])
  | .resp r =>
    (match acquireBody apiPath r with
     | .error e => .error e
     | .ok responseData =>
       if !r.isOk then
         .error
           { message := jsOrElseStr (jsonLookup responseData "errmsg")
               (if r.statusText != "" then r.statusText
                else "YAPI request failed with status " ++ toString r.status)
             errcode := jsonLookup responseData "errcode"
             status := some r.status
             responseBody := some responseData }
       else if isBusinessErrorBody responseData then
         .error
           { message := jsOrElseStr (jsonLookup responseData "errmsg")
               ("YAPI operation failed with code "
                 ++ jsStringOpt (jsonLookup responseData "errcode"))
             errcode := jsonLookup responseData "errcode"
             status := some r.status
             responseBody := some responseData }
       else
         match schemaChk responseData with
         | ([], parsedData) => .ok parsedData
         | (issues, _) =>
           .error
             { message := "YAPI response validation failed for " ++ apiPath
                 ++ ". Details: " ++ validationDetails issues
               status := some r.status
               responseBody := some responseData
               zodIssues := issues },
     [call])

/-! ## YapiService operations (yapiService.ts) -/

/-- Immutable configuration held by a constructed `YapiService`. -/
structure YapiServiceState where
  baseUrl : String
  apiBase : String
  token : String
deriving DecidableEq, Repr

/-- JavaScript whitespace for `String.prototype.trim` (the characters
relevant here). -/
def isJsSpace (c : Char) : Bool :=
  c = ' ' || c = '\t' || c = '\n' || c = '\r'

/-- Model of JavaScript `s.trim()`. -/
def jsTrim (s : String) : String :=
  ⟨((s.data.dropWhile isJsSpace).reverse.dropWhile isJsSpace).reverse⟩

/-- Model of JavaScript `s.startsWith(pre)`. -/
def jsStartsWith (s pre : String) : Bool :=
  pre.data.isPrefixOf s.data

/-- Model of JavaScript `s.endsWith(suf)`. -/
def jsEndsWith (s suf : String) : Bool :=
  suf.data.isSuffixOf s.data

/-- The delimiter test of `tryParseJsonString`: the trimmed string looks
like a JSON object or array. -/
def looksLikeJson (t : String) : Bool :=
  (jsStartsWith t "\x7b" && jsEndsWith t "\x7d") || (jsStartsWith t "[" && jsEndsWith t "]")

/-- The `tryParseJsonString` helper of `getInterfaceDetails`: a non-empty
string whose trimmed form looks like a JSON object or array is replaced by
its parse when `JSON.parse` (the `parse` parameter) succeeds; in every
other case — parse failure, other delimiters, empty string, null, or a
non-string value — the value is returned unchanged. -/
def tryParseJsonString (parse : String → Option Json) (v : Json) : Json :=
  match v with
  | .str s =>
    if s = "" then v
    else
      let trimmed := jsTrim s
      if looksLikeJson trimmed then
        match parse trimmed with
        | some j => j
        | none => v
      else v
  | _ => v

/-- Update of one object entry when its key matches. -/
def updEntry (k : String) (f : Json → Json) (kv : String × Json) : String × Json :=
  if kv.1 = k then (kv.1, f kv.2) else kv

/-- In-place update of a present object field (`o[k] = f(o[k])`); an object
without the key and a non-object are left unchanged (the source writes
`undefined` back in that case, which is invisible at the JSON level). -/
def updField (o : Json) (k : String) (f : Json → Json) : Json :=
  match o with
  | .obj fs => .obj (fs.map (updEntry k f))
  | _ => o

/-- The normalization `getInterfaceDetails` applies to the validated data
payload: re-parse `res_body` and `req_body_other` opportunistically. -/
def normalizeDetailData (parse : String → Option Json) (data : Json) : Json :=
  updField (updField data "res_body" (tryParseJsonString parse)) "req_body_other"
    (tryParseJsonString parse)

/-- JavaScript `response.errcode === 0 && response.data` on the validated
response object. -/
def errcodeZeroAndData (response : Json) : Bool :=
  (match jsonLookup response "errcode" with
   | some (.num n) => n == 0
   | _ => false)
  && truthyOpt (jsonLookup response "data")

/-- `YapiService.getInterfaceDetails`: request `/interface/get` validated
against `YapiInterfaceGetResponseSchema`, then return the inner data
payload with the two string-encoded body fields opportunistically
re-parsed. -/
def YapiService.getInterfaceDetails (parse : String → Option Json) (svc : YapiServiceState)
    (backend : Backend) (interfaceId : Int) : Except YapiError Json × List BackendCall :=
  let r := YapiService.request svc.apiBase svc.token backend "/interface/get"
    (YapiResponseSchemaChk YapiInterfaceDetailDataSchemaChk) [("id", some interfaceId)]
  match r.1 with
  | .error e => (.error e, r.2)
  | .ok response =>
    if errcodeZeroAndData response then
      let d := (jsonLookup response "data").getD .null
      (.ok (normalizeDetailData parse d), r.2)
    else
      (.error
        { message := jsOrElseStr (jsonLookup response "errmsg") "Failed to get interface details"
          errcode := jsonLookup response "errcode" },
       r.2)

/-- `YapiService.listInterfacesByCategory` (page and limit are always
passed explicitly by the dispatcher, which applies the schema defaults). -/
def YapiService.listInterfacesByCategory (svc : YapiServiceState) (backend : Backend)
    (categoryId page limit : Int) : Except YapiError Json × List BackendCall :=
  let r := YapiService.request svc.apiBase svc.token backend "/interface/list_cat"
    (YapiResponseSchemaChk YapiListCatDataSchemaChk)
    [("catid", some categoryId), ("page", some page), ("limit", some limit)]
  match r.1 with
  | .error e => (.error e, r.2)
  | .ok response =>
    if errcodeZeroAndData response then
      (.ok ((jsonLookup response "data").getD .null), r.2)
    else
      (.error
        { message := jsOrElseStr (jsonLookup response "errmsg")
            "Failed to list interfaces by category"
          errcode := jsonLookup response "errcode" },
       r.2)

/-- `YapiService.getProjectInterfaceMenu`. -/
def YapiService.getProjectInterfaceMenu (svc : YapiServiceState) (backend : Backend) :
    Except YapiError Json × List BackendCall :=
  let r := YapiService.request svc.apiBase svc.token backend "/interface/list_menu"
    (YapiResponseSchemaChk YapiMenuDataSchemaChk) []
  match r.1 with
  | .error e => (.error e, r.2)
  | .ok response =>
    if errcodeZeroAndData response then
      (.ok ((jsonLookup response "data").getD .null), r.2)
    else
      (.error
        { message := jsOrElseStr (jsonLookup response "errmsg")
            "Failed to get project interface menu"
          errcode := jsonLookup response "errcode" },
       r.2)

/-- `YapiService.getProjectInfo`. -/
def YapiService.getProjectInfo (svc : YapiServiceState) (backend : Backend) :
    Except YapiError Json × List BackendCall :=
  let r := YapiService.request svc.apiBase svc.token backend "/project/get"
    (YapiResponseSchemaChk YapiProjectSchemaChk) []
  match r.1 with
  | .error e => (.error e, r.2)
  | .ok response =>
    if errcodeZeroAndData response then
      (.ok ((jsonLookup response "data").getD .null), r.2)
    else
      (.error
        { message := jsOrElseStr (jsonLookup response "errmsg") "Failed to get project info"
          errcode := jsonLookup response "errcode" },
       r.2)

/-! ## YapiService construction (yapiService.ts constructor, index.ts startup) -/

/-- Components of a parsed WHATWG URL as read by the constructor. The
`protocol` component includes its trailing colon, as in the URL API. -/
structure URLParts where
  protocol : String
  host : String
  pathname : String
deriving DecidableEq, Repr

/-- JavaScript truthiness of an optional string parameter (`!baseUrl`
rejects both an undefined and an empty value). -/
def strTruthy : Option String → Bool
  | none => false
  | some s => s != ""

/-- The `YapiService` constructor: rejects a missing or empty base URL or
token and an unparseable base URL with a `ConfigurationError`; a parsed
base URL with a non-trivial path is reduced to scheme and host with a
warning; otherwise only a trailing slash is removed. Returns the
constructed state together with the warnings emitted. `parseURL` models
`new URL`, returning none when the constructor would throw. -/
def YapiService.construct (parseURL : String → Option URLParts)
    (baseUrl token : Option String) :
    Except ConfigurationError (YapiServiceState × List String) :=
  if !strTruthy baseUrl then
    .error ⟨"YAPI_BASE_URL environment variable is not configured."⟩
  else if !strTruthy token then
    .error ⟨"YAPI_PROJECT_TOKEN environment variable is not configured."⟩
  else
    let raw := baseUrl.getD ""
    match parseURL raw with
    | none =>
      .error ⟨"Invalid YAPI_BASE_URL provided: \"" ++ raw
        ++ "\". It should be a valid URL like \"https://yapi.example.com\"."⟩
    | some parsedUrl =>
      let finalBase :=
        if parsedUrl.pathname != "/" && parsedUrl.pathname != "" then
          parsedUrl.protocol ++ "//" ++ parsedUrl.host
        else if jsEndsWith raw "/" then raw.dropRight 1
        else raw
      let warnings :=
        if parsedUrl.pathname != "/" && parsedUrl.pathname != "" then
          ["[YapiService Config Warning] The provided YAPI_BASE_URL \"" ++ raw
            ++ "\" includes a path (\"" ++ parsedUrl.pathname
            ++ "\"). It should typically be just the base domain (e.g., \"https://yapi.example.com\"). Removing the path."]
        else []
      .ok ({ baseUrl := finalBase, apiBase := finalBase ++ "/api", token := token.getD "" }, warnings)

/-- Outcome of process startup (`main` in index.ts): the process exits
before serving, or enters exactly one of the two session models. -/
inductive StartOutcome where
  | exited (code : Nat)
  | runningStdio (svc : YapiServiceState)
  | runningHttp (svc : YapiServiceState) (port : Nat)
deriving DecidableEq, Repr

/-- The startup sequence of index.ts `main`: construct the service (a
`ConfigurationError` exits with code 1 before any transport is started),
then enter the selected transport, validating the port for the streaming
model. -/
def mainStartup (parseURL : String → Option URLParts) (baseUrl token : Option String)
    (transportMode : String) (port : Nat) : StartOutcome :=
  match YapiService.construct parseURL baseUrl token with
  | .error _ => .exited 1
  | .ok (svc, _) =>
    if transportMode = "streamable-http" then
      if port = 0 || port > 65535 then .exited 1
      else .runningHttp svc port
    else if transportMode = "stdio" then .runningStdio svc
    else .exited 1

/-! ## Tool dispatcher (mcp_server.ts CallTool handler) -/

/-- An error reaching the catch clause of the CallTool handler: a zod
argument failure, a `YapiError`, a `ConfigurationError`, any other
JavaScript `Error`, or a thrown non-Error value. -/
inductive ThrownError where
  | zodError (issues : List ZIssue)
  | yapiError (e : YapiError)
  | configError (message : String)
  | otherError (message : String)
  | nonErrorThrown

/-- One Invocation Result of the CallTool handler: the error flag and the
text contents (each content item of the source is `type: "text"`). -/
structure CallToolResult where
  isError : Bool
  content : List String
deriving DecidableEq, Repr

/-- Error text of the zod branch of the catch clause. -/
def zodErrorText (name : String) (issues : List ZIssue) : String :=
  "Invalid arguments for tool " ++ name ++ ": "
    ++ joinSep ", " (issues.map (fun e => pathJoin e.path ++ ": " ++ e.message))

/-- Error text of the `YapiError` branch of the catch clause: the message,
then the business code and HTTP status when each is truthy. -/
def yapiErrorText (name : String) (e : YapiError) : String :=
  "YAPI API Error for tool " ++ name ++ ": " ++ e.message
    ++ (if truthyOpt e.errcode then " (Code: " ++ jsStringOpt e.errcode ++ ")" else "")
    ++ (match e.status with
        | some s => if s != 0 then " (HTTP Status: " ++ toString s ++ ")" else ""
        | none => "")

/-- The catch clause of the CallTool handler: every thrown error is
converted into an error-flagged result with one text message; nothing is
re-thrown. -/
def dispatchCatch (name : String) (e : ThrownError) : CallToolResult :=
  match e with
  | .zodError issues => ⟨true, [zodErrorText name issues]⟩
  | .yapiError err => ⟨true, [yapiErrorText name err]⟩
  | .configError m => ⟨true, ["Configuration Error for tool " ++ name ++ ": " ++ m]⟩
  | .otherError m => ⟨true, ["Internal server error for tool " ++ name ++ ": " ++ m]⟩
  | .nonErrorThrown => ⟨true, ["An unknown error occurred while processing tool " ++ name ++ "."]⟩

/-- The fixed set of tool names advertised by `TOOLS`. -/
def toolNames : List String :=
  ["yapi_get_interface_details", "yapi_list_interfaces_by_category",
   "yapi_get_project_interface_menu", "yapi_get_project_info"]

/-- Success result: the data serialized as a formatted JSON document. -/
def successResult (data : Json) : CallToolResult :=
  ⟨false, [stringifyPretty 0 data]⟩

/-- Case body for `yapi_get_interface_details`, as a function of the parse
outcome of its arguments. -/
def detailsBranch (parse : String → Option Json) (svc : YapiServiceState) (backend : Backend)
    (parsedArgs : Except (List ZIssue) Int) : CallToolResult × List BackendCall :=
  match parsedArgs with
  | .error issues => (dispatchCatch "yapi_get_interface_details" (.zodError issues), [])
  | .ok interfaceId =>
    let r := YapiService.getInterfaceDetails parse svc backend interfaceId
    match r.1 with
    | .error e => (dispatchCatch "yapi_get_interface_details" (.yapiError e), r.2)
    | .ok data => (successResult data, r.2)

/-- Case body for `yapi_list_interfaces_by_category`. -/
def listBranch (svc : YapiServiceState) (backend : Backend)
    (parsedArgs : Except (List ZIssue) (Int × Int × Int)) : CallToolResult × List BackendCall :=
  match parsedArgs with
  | .error issues => (dispatchCatch "yapi_list_interfaces_by_category" (.zodError issues), [])
  | .ok args =>
    let r := YapiService.listInterfacesByCategory svc backend args.1 args.2.1 args.2.2
    match r.1 with
    | .error e => (dispatchCatch "yapi_list_interfaces_by_category" (.yapiError e), r.2)
    | .ok data => (successResult data, r.2)

/-- Case body for `yapi_get_project_interface_menu`. -/
def menuBranch (svc : YapiServiceState) (backend : Backend)
    (parsedArgs : Except (List ZIssue) Unit) : CallToolResult × List BackendCall :=
  match parsedArgs with
  | .error issues => (dispatchCatch "yapi_get_project_interface_menu" (.zodError issues), [])
  | .ok _ =>
    let r := YapiService.getProjectInterfaceMenu svc backend
    match r.1 with
    | .error e => (dispatchCatch "yapi_get_project_interface_menu" (.yapiError e), r.2)
    | .ok data => (successResult data, r.2)

/-- Case body for `yapi_get_project_info`. -/
def infoBranch (svc : YapiServiceState) (backend : Backend)
    (parsedArgs : Except (List ZIssue) Unit) : CallToolResult × List BackendCall :=
  match parsedArgs with
  | .error issues => (dispatchCatch "yapi_get_project_info" (.zodError issues), [])
  | .ok _ =>
    let r := YapiService.getProjectInfo svc backend
    match r.1 with
    | .error e => (dispatchCatch "yapi_get_project_info" (.yapiError e), r.2)
    | .ok data => (successResult data, r.2)

/-- The CallTool request handler: switch on the tool name, parse the
arguments against the schema of the tool (a zod failure becomes an error
result before any backend call), invoke the service, serialize a success,
and map every failure through the catch clause. An unknown name yields an
error result without touching the backend. The second component lists the
backend calls issued while handling the request. -/
def handleCallTool (parse : String → Option Json) (svc : YapiServiceState) (backend : Backend)
    (name : String) (args : Option Json) : CallToolResult × List BackendCall :=
  if name = "yapi_get_interface_details" then
    detailsBranch parse svc backend (GetInterfaceDetailsArgsSchemaParse args)
  else if name = "yapi_list_interfaces_by_category" then
    listBranch svc backend (ListInterfacesByCategoryArgsSchemaParse args)
  else if name = "yapi_get_project_interface_menu" then
    menuBranch svc backend (EmptyArgsSchemaParse args)
  else if name = "yapi_get_project_info" then
    infoBranch svc backend (EmptyArgsSchemaParse args)
  else
    (⟨true, ["Error: Unknown tool name '" ++ name ++ "'"]⟩, [])

/-! ## Streamable HTTP endpoint routing (transports/streamableHttp.ts) -/

/-- What the unified `/mcp` handler decides to do with one request: route
it to the existing transport of a known session, initialize a new session,
or reject it with a status and a structured JSON-RPC error body. -/
inductive EndpointOutcome where
  | reuse (sid : String)
  | initNew
  | reject (status : Nat) (body : Json)
deriving Repr

/-- A structured JSON-RPC error body as the endpoint builds one. -/
def jsonRpcErrorBody (code : Int) (message : String) : Json :=
  .obj [("jsonrpc", .str "2.0"),
        ("error", .obj [("code", .num code), ("message", .str message)]),
        ("id", .null)]

/-- Truthiness of the `mcp-session-id` header value (an absent header is
undefined; an empty header value is falsy too). -/
def sidTruthy : Option String → Bool
  | none => false
  | some s => s != ""

/-- The branch cascade of the `/mcp` handler: a truthy session id present
in the routing table reuses that transport; an initialize POST without a
session id starts a new session; a non-POST without a session id is a 400;
a truthy session id absent from the table is a 404 (for GET, POST and
DELETE alike); anything else — a non-initialize POST without a session
id — is a 400. The handler always responds; it never crashes the server. -/
def handleMcpEndpoint (method : String) (sessionId : Option String)
    (table : List String) (bodyIsInit : Bool) : EndpointOutcome :=
  let sid := sessionId.getD ""
  if sidTruthy sessionId && table.contains sid then
    .reuse sid
  else if !sidTruthy sessionId && method == "POST" && bodyIsInit then
    .initNew
  else if !sidTruthy sessionId && method != "POST" then
    .reject 400 (jsonRpcErrorBody (-32000)
      "Bad Request: Mcp-Session-Id header required for this request.")
  else if sidTruthy sessionId && !table.contains sid then
    .reject 404 (jsonRpcErrorBody (-32000) "Not Found: Invalid or expired session ID.")
  else
    .reject 400 (jsonRpcErrorBody (-32000) "Bad Request: Invalid request combination.")

/-! ## Helper notions for the theorems -/

/-- The substring relation used to state that an error message mentions a
piece of text. -/
def ContainsStr (big small : String) : Prop :=
  ∃ x y, big = x ++ small ++ y

lemma containsStr_self (s : String) : ContainsStr s s :=
  ⟨"", "", by simp⟩

lemma containsStr_append_left (a : String) {b s : String} (h : ContainsStr b s) :
    ContainsStr (a ++ b) s := by
  obtain ⟨x, y, rfl⟩ := h
  exact ⟨a ++ x, y, by simp [String.append_assoc]⟩

lemma containsStr_append_right (c : String) {b s : String} (h : ContainsStr b s) :
    ContainsStr (b ++ c) s := by
  obtain ⟨x, y, rfl⟩ := h
  exact ⟨x, y ++ c, by simp [String.append_assoc]⟩

lemma containsStr_joinSep (sep : String) {l : List String} {p : String} (h : p ∈ l) :
    ContainsStr (joinSep sep l) p := by
  induction l with
  | nil => cases h
  | cons x xs ih =>
    cases xs with
    | nil =>
      rcases List.mem_singleton.mp h with rfl
      exact containsStr_self p
    | cons y ys =>
      rcases List.mem_cons.mp h with rfl | hmem
      · exact ⟨"", sep ++ joinSep sep (y :: ys), by simp [joinSep, String.append_assoc]⟩
      · have := ih hmem
        have h2 : ContainsStr (sep ++ joinSep sep (y :: ys)) p := containsStr_append_left sep this
        have h3 : ContainsStr (x ++ (sep ++ joinSep sep (y :: ys))) p :=
          containsStr_append_left x h2
        simpa [joinSep, String.append_assoc] using h3

/-! ## Claim theorems -/

/-- C1: every error raised while processing a call_tool invocation — a zod
argument-validation error, a backend `YapiError` of any kind (business,
transport or schema), a `ConfigurationError`, any other unexpected `Error`,
or a thrown non-Error value — is converted by the catch clause of the Tool
Dispatcher into an Invocation Result with the error flag set and exactly
one non-empty text message, and the CallTool handler as a whole always
returns a result with exactly one text content item: no error is
re-thrown past the dispatcher boundary. -/
theorem c1_dispatcher_never_rethrows :
    (∀ (name : String) (e : ThrownError),
      (dispatchCatch name e).isError = true ∧
      ∃ msg, (dispatchCatch name e).content = [msg] ∧ 0 < msg.length)
    ∧ ∀ (parse : String → Option Json) (svc : YapiServiceState) (backend : Backend)
        (name : String) (args : Option Json),
        (handleCallTool parse svc backend name args).1.content.length = 1 := by
  constructor
  · intro name e
    cases e with
    | zodError issues =>
      refine ⟨rfl, zodErrorText name issues, rfl, ?_⟩
      have h1 : ("Invalid arguments for tool " : String).length = 27 := rfl
      simp [zodErrorText, String.length_append]
      omega
    | yapiError err =>
      refine ⟨rfl, yapiErrorText name err, rfl, ?_⟩
      have h1 : ("YAPI API Error for tool " : String).length = 24 := rfl
      simp [yapiErrorText, String.length_append]
      omega
    | configError m =>
      refine ⟨rfl, _, rfl, ?_⟩
      have h1 : ("Configuration Error for tool " : String).length = 29 := rfl
      simp [dispatchCatch, String.length_append]
      omega
    | otherError m =>
      refine ⟨rfl, _, rfl, ?_⟩
      have h1 : ("Internal server error for tool " : String).length = 31 := rfl
      simp [dispatchCatch, String.length_append]
      omega
    | nonErrorThrown =>
      refine ⟨rfl, _, rfl, ?_⟩
      have h1 : ("An unknown error occurred while processing tool " : String).length = 48 := rfl
      simp [dispatchCatch, String.length_append]
      omega
  · intro parse svc backend name args
    unfold handleCallTool
    split
    · simp only [detailsBranch]
      split
      · rfl
      · split <;> rfl
    · split
      · simp only [listBranch]
        split
        · rfl
        · split <;> rfl
      · split
        · simp only [menuBranch]
          split
          · rfl
          · split <;> rfl
        · split
          · simp only [infoBranch]
            split
            · rfl
            · split <;> rfl
          · rfl

/-- C2: no backend call is attempted unless the tool name is known and the
arguments validate. An unknown name yields an error result with zero
backend calls; a zod argument failure on any of the four tools yields the
zod error result with zero backend calls; the zod error text mentions
every violated field (each issue path with its message); and a
`category_id`, `interface_id`, `page` or `limit` of 0 or negative is a
schema violation naming that field. -/
theorem c2_no_backend_call_without_validation :
    (∀ (parse : String → Option Json) (svc : YapiServiceState) (backend : Backend)
        (name : String) (args : Option Json),
        name ∉ toolNames →
        handleCallTool parse svc backend name args
          = (⟨true, ["Error: Unknown tool name '" ++ name ++ "'"]⟩, []))
    ∧ (∀ (parse : String → Option Json) (svc : YapiServiceState) (backend : Backend)
        (args : Option Json) (issues : List ZIssue),
        GetInterfaceDetailsArgsSchemaParse args = .error issues →
        handleCallTool parse svc backend "yapi_get_interface_details" args
          = (dispatchCatch "yapi_get_interface_details" (.zodError issues), []))
    ∧ (∀ (parse : String → Option Json) (svc : YapiServiceState) (backend : Backend)
        (args : Option Json) (issues : List ZIssue),
        ListInterfacesByCategoryArgsSchemaParse args = .error issues →
        handleCallTool parse svc backend "yapi_list_interfaces_by_category" args
          = (dispatchCatch "yapi_list_interfaces_by_category" (.zodError issues), []))
    ∧ (∀ (parse : String → Option Json) (svc : YapiServiceState) (backend : Backend)
        (args : Option Json) (issues : List ZIssue),
        EmptyArgsSchemaParse args = .error issues →
        handleCallTool parse svc backend "yapi_get_project_interface_menu" args
          = (dispatchCatch "yapi_get_project_interface_menu" (.zodError issues), [])
        ∧ handleCallTool parse svc backend "yapi_get_project_info" args
          = (dispatchCatch "yapi_get_project_info" (.zodError issues), []))
    ∧ (∀ (name : String) (issues : List ZIssue) (i : ZIssue), i ∈ issues →
        ContainsStr (zodErrorText name issues) (pathJoin i.path ++ ": " ++ i.message))
    ∧ (∀ n : Int, n ≤ 0 →
        GetInterfaceDetailsArgsSchemaParse (some (.obj [("interface_id", .num n)]))
          = .error [⟨[.key "interface_id"], "Number must be greater than 0"⟩])
    ∧ (∀ c pg lim : Int, c ≤ 0 → pg ≤ 0 → lim ≤ 0 →
        ListInterfacesByCategoryArgsSchemaParse
            (some (.obj [("category_id", .num c), ("page", .num pg), ("limit", .num lim)]))
          = .error [⟨[.key "category_id"], "Number must be greater than 0"⟩,
                    ⟨[.key "page"], "Number must be greater than 0"⟩,
                    ⟨[.key "limit"], "Number must be greater than 0"⟩]) := by
  refine ⟨?_, ?_, ?_, ?_, ?_, ?_, ?_⟩
  · intro parse svc backend name args h
    simp only [toolNames, List.mem_cons, List.not_mem_nil, or_false] at h
    push_neg at h
    obtain ⟨h1, h2, h3, h4⟩ := h
    unfold handleCallTool
    rw [if_neg h1, if_neg h2, if_neg h3, if_neg h4]
  · intro parse svc backend args issues h
    show detailsBranch parse svc backend (GetInterfaceDetailsArgsSchemaParse args) = _
    rw [h]
    rfl
  · intro parse svc backend args issues h
    show listBranch svc backend (ListInterfacesByCategoryArgsSchemaParse args) = _
    rw [h]
    rfl
  · intro parse svc backend args issues h
    constructor
    · show menuBranch svc backend (EmptyArgsSchemaParse args) = _
      rw [h]
      rfl
    · show infoBranch svc backend (EmptyArgsSchemaParse args) = _
      rw [h]
      rfl
  · intro name issues i hi
    have hmem : pathJoin i.path ++ ": " ++ i.message
        ∈ issues.map (fun e => pathJoin e.path ++ ": " ++ e.message) :=
      List.mem_map_of_mem _ hi
    have hjoin := containsStr_joinSep ", " hmem
    exact containsStr_append_left _ hjoin
  · intro n h
    have hn : ¬ (n > 0) := by omega
    simp [GetInterfaceDetailsArgsSchemaParse, posIntField, checkPosInt, lookupField, hn]
  · intro c pg lim hc hp hl
    have hc2 : ¬ (c > 0) := by omega
    have hp2 : ¬ (pg > 0) := by omega
    have hl2 : ¬ (lim > 0) := by omega
    simp [ListInterfacesByCategoryArgsSchemaParse, posIntField, posIntFieldDefault,
      checkPosInt, lookupField, hc2, hp2, hl2]

/-- Fixed placeholder JSON.parse used by the witnesses: never parses. -/
def witnessParse : String → Option Json := fun _ => none

/-- Fixed service state used by the witnesses. -/
def witnessSvc : YapiServiceState :=
  ⟨"https://yapi.example.com", "https://yapi.example.com/api", "token123"⟩

/-- Backend that always fails at the network level, for witnesses that
must not depend on a response. -/
def witnessBackendDown : Backend := fun _ _ => .netErr "connect ECONNREFUSED"

/-- Witness for C2 at concrete inputs: an unknown tool name, a missing
`interface_id`, and a zero `interface_id`. -/
theorem c2_witness :
    handleCallTool witnessParse witnessSvc witnessBackendDown "bogus_tool" none
      = (⟨true, ["Error: Unknown tool name '" ++ "bogus_tool" ++ "'"]⟩, [])
    ∧ handleCallTool witnessParse witnessSvc witnessBackendDown "yapi_get_interface_details"
        (some (.obj []))
      = (dispatchCatch "yapi_get_interface_details"
          (.zodError [⟨[.key "interface_id"], "Required"⟩]), [])
    ∧ GetInterfaceDetailsArgsSchemaParse (some (.obj [("interface_id", .num 0)]))
      = .error [⟨[.key "interface_id"], "Number must be greater than 0"⟩] := by
  refine ⟨?_, ?_, ?_⟩
  · exact c2_no_backend_call_without_validation.1 witnessParse witnessSvc witnessBackendDown
      "bogus_tool" none (by decide)
  · exact c2_no_backend_call_without_validation.2.1 witnessParse witnessSvc witnessBackendDown
      (some (.obj [])) [⟨[.key "interface_id"], "Required"⟩] rfl
  · exact c2_no_backend_call_without_validation.2.2.2.2.2.1 0 (by omega)

/-- C3: a 2xx backend response whose parsed JSON body carries a non-zero
numeric `errcode` makes the Backend Client raise a `YapiError` carrying
exactly the body's `errmsg` as message and its `errcode` and status, and
the dispatcher turns such an error into an error-flagged result whose
single text mentions the backend message and the numeric code. -/
theorem c3_business_error_carries_message_and_code :
    (∀ (apiBase token : String) (backend : Backend) (apiPath : String)
        (schemaChk : Json → List ZIssue × Json) (params : List (String × Option Int))
        (r : HttpResponse) (fs : List (String × Json)) (c : Int) (m : String),
        backend (apiBase ++ apiPath) (buildQuery token params) = .resp r →
        r.isOk = true →
        ctIncludesJson r.contentType = true →
        r.jsonBody = some (.obj fs) →
        lookupField fs "errcode" = some (.num c) →
        c ≠ 0 →
        lookupField fs "errmsg" = some (.str m) →
        m ≠ "" →
        (YapiService.request apiBase token backend apiPath schemaChk params).1
          = .error { message := m, errcode := some (.num c), status := some r.status,
                     responseBody := some (.obj fs) })
    ∧ (∀ (name m : String) (c : Int) (st : Nat) (body : Json), c ≠ 0 →
        dispatchCatch name (.yapiError
            { message := m, errcode := some (.num c), status := some st,
              responseBody := some body })
          = ⟨true, [yapiErrorText name
              { message := m, errcode := some (.num c), status := some st,
                responseBody := some body }]⟩
        ∧ ContainsStr (yapiErrorText name
            { message := m, errcode := some (.num c), status := some st,
              responseBody := some body }) m
        ∧ ContainsStr (yapiErrorText name
            { message := m, errcode := some (.num c), status := some st,
              responseBody := some body }) (" (Code: " ++ toString c ++ ")")) := by
  constructor
  · intro apiBase token backend apiPath schemaChk params r fs c m hb hok hct hjson hcode hc hmsg hm
    have hcz : (c != 0) = true := by simpa using hc
    have hmz : (m != "") = true := by simpa using hm
    simp only [YapiService.request, hb]
    simp only [acquireBody, hct, if_true, hjson, hok]
    simp only [isBusinessErrorBody, jsonLookup, hcode, hcz, Bool.not_true, Bool.false_eq_true,
      if_false, if_true, hmsg, jsOrElseStr, truthy, hmz, jsString]
  · intro name m c st body hc
    have hcz : truthyOpt (some (.num c)) = true := by
      simp [truthyOpt, truthy]
      exact hc
    refine ⟨rfl, ?_, ?_⟩
    · refine ⟨"YAPI API Error for tool " ++ name ++ ": ", ?_, ?_⟩
      · exact (if truthyOpt (some (.num c)) then
          " (Code: " ++ jsStringOpt (some (.num c)) ++ ")" else "")
          ++ (match (some st : Option Nat) with
              | some s => if s != 0 then " (HTTP Status: " ++ toString s ++ ")" else ""
              | none => "")
      · simp [yapiErrorText, String.append_assoc]
    · refine ⟨"YAPI API Error for tool " ++ name ++ ": " ++ m, ?_, ?_⟩
      · exact (match (some st : Option Nat) with
              | some s => if s != 0 then " (HTTP Status: " ++ toString s ++ ")" else ""
              | none => "")
      · simp [yapiErrorText, hcz, jsStringOpt, jsString, String.append_assoc]

/-- Backend returning HTTP 200 with body
`\x7b"errcode":40011,"errmsg":"token invalid"\x7d`, for the C3 witness. -/
def witnessBackendBiz : Backend := fun _ _ =>
  .resp { status := 200,
          jsonBody := some (.obj [("errcode", .num 40011), ("errmsg", .str "token invalid")]) }

/-- Witness for C3: errcode 40011 with errmsg token invalid produces the
business `YapiError` and a dispatcher message containing both. -/
theorem c3_witness :
    (YapiService.request "https://yapi.example.com/api" "token123" witnessBackendBiz
        "/project/get" (YapiResponseSchemaChk YapiProjectSchemaChk) []).1
      = .error { message := "token invalid", errcode := some (.num 40011), status := some 200,
                 responseBody := some (.obj [("errcode", .num 40011),
                                             ("errmsg", .str "token invalid")]) }
    ∧ ContainsStr (yapiErrorText "yapi_get_project_info"
        { message := "token invalid", errcode := some (.num 40011), status := some 200,
          responseBody := some (.obj [("errcode", .num 40011), ("errmsg", .str "token invalid")]) })
        "token invalid"
    ∧ ContainsStr (yapiErrorText "yapi_get_project_info"
        { message := "token invalid", errcode := some (.num 40011), status := some 200,
          responseBody := some (.obj [("errcode", .num 40011), ("errmsg", .str "token invalid")]) })
        (" (Code: " ++ toString (40011 : Int) ++ ")") := by
  refine ⟨?_, ?_, ?_⟩
  · exact c3_business_error_carries_message_and_code.1 "https://yapi.example.com/api" "token123"
      witnessBackendBiz "/project/get" (YapiResponseSchemaChk YapiProjectSchemaChk) []
      _ _ 40011 "token invalid" rfl (by decide) (by decide) rfl rfl (by decide) rfl (by decide)
  · exact (c3_business_error_carries_message_and_code.2 "yapi_get_project_info" "token invalid"
      40011 200 (.obj [("errcode", .num 40011), ("errmsg", .str "token invalid")])
      (by decide)).2.1
  · exact (c3_business_error_carries_message_and_code.2 "yapi_get_project_info" "token invalid"
      40011 200 (.obj [("errcode", .num 40011), ("errmsg", .str "token invalid")])
      (by decide)).2.2

/-- C4: every backend response with a non-2xx status, an unparseable JSON
body, or a non-JSON content type makes the Backend Client raise a
`YapiError` that captures the HTTP status and the available body; in the
non-JSON non-2xx case the message states the status and the text body
verbatim and mentions the status, and the dispatcher result for such an
error mentions the HTTP status too. -/
theorem c4_transport_failures_capture_status :
    (∀ (apiBase token : String) (backend : Backend) (apiPath : String)
        (schemaChk : Json → List ZIssue × Json) (params : List (String × Option Int))
        (r : HttpResponse),
        backend (apiBase ++ apiPath) (buildQuery token params) = .resp r →
        (r.isOk = false ∨ r.jsonBody = none ∨ ctIncludesJson r.contentType = false) →
        ∃ e : YapiError,
          (YapiService.request apiBase token backend apiPath schemaChk params).1 = .error e
          ∧ e.status = some r.status ∧ e.responseBody.isSome = true)
    ∧ (∀ (apiBase token : String) (backend : Backend) (apiPath : String)
        (schemaChk : Json → List ZIssue × Json) (params : List (String × Option Int))
        (r : HttpResponse),
        backend (apiBase ++ apiPath) (buildQuery token params) = .resp r →
        ctIncludesJson r.contentType = false →
        r.isOk = false →
        (YapiService.request apiBase token backend apiPath schemaChk params).1
          = .error { message := "YAPI request failed with non-JSON response. Status: "
                       ++ toString r.status ++ ". Body: " ++ r.textBody,
                     status := some r.status, responseBody := some (.str r.textBody) }
        ∧ ContainsStr ("YAPI request failed with non-JSON response. Status: "
                       ++ toString r.status ++ ". Body: " ++ r.textBody)
            ("Status: " ++ toString r.status))
    ∧ (∀ (name : String) (e : YapiError) (st : Nat), e.errcode = none → e.status = some st →
        st ≠ 0 →
        ContainsStr (yapiErrorText name e) (" (HTTP Status: " ++ toString st ++ ")")) := by
  refine ⟨?_, ?_, ?_⟩
  · intro apiBase token backend apiPath schemaChk params r hb hbad
    simp only [YapiService.request, hb]
    by_cases hct : ctIncludesJson r.contentType = true
    · cases hjb : r.jsonBody with
      | none =>
        simp only [acquireBody, hct, if_true, hjb]
        exact ⟨_, rfl, rfl, rfl⟩
      | some body =>
        have hok : r.isOk = false := by
          rcases hbad with h | h | h
          · exact h
          · rw [hjb] at h; cases h
          · rw [hct] at h; cases h
        simp only [acquireBody, hct, if_true, hjb, hok, Bool.not_false, if_true]
        exact ⟨_, rfl, rfl, rfl⟩
    · have hct2 : ctIncludesJson r.contentType = false := by simpa using hct
      simp only [acquireBody, hct2, Bool.false_eq_true, if_false]
      cases hok : r.isOk with
      | false =>
        simp only [hok, Bool.not_false, if_true]
        exact ⟨_, rfl, rfl, rfl⟩
      | true =>
        simp only [hok, Bool.not_true, Bool.false_eq_true, if_false]
        exact ⟨_, rfl, rfl, rfl⟩
  · intro apiBase token backend apiPath schemaChk params r hb hct hok
    constructor
    · simp only [YapiService.request, hb]
      simp only [acquireBody, hct, Bool.false_eq_true, if_false, hok, Bool.not_false, if_true]
    · refine ⟨"YAPI request failed with non-JSON response. ", ". Body: " ++ r.textBody, ?_⟩
      simp only [String.append_assoc]
      rw [← String.append_assoc "YAPI request failed with non-JSON response. " "Status: "]
      rfl
  · intro name e st hcode hst hnz
    have h0 : truthyOpt e.errcode = false := by rw [hcode]; rfl
    have hstz : (st != 0) = true := by simpa using hnz
    refine ⟨"YAPI API Error for tool " ++ name ++ ": " ++ e.message, "", ?_⟩
    simp [yapiErrorText, h0, hst, hstz, String.append_assoc, String.append_empty]

/-- Backend returning HTTP 500 with a non-JSON body, for the C4 witness. -/
def witnessBackend500 : Backend := fun _ _ =>
  .resp { status := 500, contentType := some "text/html", textBody := "Internal Server Error" }

/-- Witness for C4: an HTTP 500 response with a non-JSON body yields the
transport `YapiError` mentioning status 500, and the dispatcher message
mentions HTTP status 500. -/
theorem c4_witness :
    ((YapiService.request "https://yapi.example.com/api" "token123" witnessBackend500
        "/project/get" (YapiResponseSchemaChk YapiProjectSchemaChk) []).1
      = .error { message := "YAPI request failed with non-JSON response. Status: "
                   ++ toString (500 : Nat) ++ ". Body: " ++ "Internal Server Error",
                 status := some 500, responseBody := some (.str "Internal Server Error") }
      ∧ ContainsStr ("YAPI request failed with non-JSON response. Status: "
                   ++ toString (500 : Nat) ++ ". Body: " ++ "Internal Server Error")
          ("Status: " ++ toString (500 : Nat)))
    ∧ ContainsStr (yapiErrorText "yapi_get_project_info"
        { message := "YAPI request failed with non-JSON response. Status: 500. Body: Internal Server Error",
          status := some 500, responseBody := some (.str "Internal Server Error") })
        (" (HTTP Status: " ++ toString (500 : Nat) ++ ")") := by
  constructor
  · exact c4_transport_failures_capture_status.2.1 "https://yapi.example.com/api" "token123"
      witnessBackend500 "/project/get" (YapiResponseSchemaChk YapiProjectSchemaChk) []
      { status := 500, contentType := some "text/html", textBody := "Internal Server Error" }
      rfl (by decide) (by decide)
  · exact c4_transport_failures_capture_status.2.2 "yapi_get_project_info"
      { message := "YAPI request failed with non-JSON response. Status: 500. Body: Internal Server Error",
        status := some 500, responseBody := some (.str "Internal Server Error") }
      500 rfl rfl (by decide)

/-- C5: a 2xx JSON response that passes the business-status check but
fails the full-shape validation of the operation makes the Backend Client
raise a `YapiError` that carries no business code (distinct from a
business failure, which always carries one), whose message lists every
failing field path with its reason; in particular a details response whose
data object lacks the required `title` field produces exactly the issue at
path `data.title` with message `Required`. -/
theorem c5_schema_mismatch_is_distinct_validation_failure :
    (∀ (apiBase token : String) (backend : Backend) (apiPath : String)
        (schemaChk : Json → List ZIssue × Json) (params : List (String × Option Int))
        (r : HttpResponse) (body : Json) (issues : List ZIssue) (out : Json),
        backend (apiBase ++ apiPath) (buildQuery token params) = .resp r →
        r.isOk = true →
        ctIncludesJson r.contentType = true →
        r.jsonBody = some body →
        isBusinessErrorBody body = false →
        schemaChk body = (issues, out) →
        issues ≠ [] →
        (YapiService.request apiBase token backend apiPath schemaChk params).1
          = .error { message := "YAPI response validation failed for " ++ apiPath
                       ++ ". Details: " ++ validationDetails issues,
                     errcode := none,
                     status := some r.status, responseBody := some body, zodIssues := issues }
        ∧ ∀ i ∈ issues,
            ContainsStr ("YAPI response validation failed for " ++ apiPath
                ++ ". Details: " ++ validationDetails issues)
              ("Path: " ++ pathJoin i.path ++ ", Message: " ++ i.message))
    ∧ (YapiResponseSchemaChk YapiInterfaceDetailDataSchemaChk
        (.obj [("errcode", .num 0), ("errmsg", .str "succ"),
               ("data", .obj [("_id", .num 42), ("method", .str "GET"), ("catid", .num 11),
                              ("path", .str "/pet/42"), ("project_id", .num 5), ("uid", .num 9),
                              ("add_time", .num 0), ("up_time", .num 0)])])).1
        = [⟨[.key "data", .key "title"], "Required"⟩] := by
  constructor
  · intro apiBase token backend apiPath schemaChk params r body issues out
      hb hok hct hjson hbiz hschema hne
    cases issues with
    | nil => exact absurd rfl hne
    | cons a as =>
      constructor
      · simp only [YapiService.request, hb]
        simp only [acquireBody, hct, if_true, hjson, hok, Bool.not_true, Bool.false_eq_true,
          if_false, hbiz, hschema]
      · intro i hi
        have hmem : "Path: " ++ pathJoin i.path ++ ", Message: " ++ i.message
            ∈ (a :: as).map (fun e => "Path: " ++ pathJoin e.path ++ ", Message: " ++ e.message) :=
          List.mem_map_of_mem _ hi
        exact containsStr_append_left _ (containsStr_joinSep "; " hmem)
  · rfl

/-- Details response body whose data object lacks the required `title`. -/
def witnessDetailNoTitleBody : Json :=
  .obj [("errcode", .num 0), ("errmsg", .str "succ"),
        ("data", .obj [("_id", .num 42), ("method", .str "GET"), ("catid", .num 11),
                       ("path", .str "/pet/42"), ("project_id", .num 5), ("uid", .num 9),
                       ("add_time", .num 0), ("up_time", .num 0)])]

/-- Backend returning HTTP 200 with a data object missing `title`. -/
def witnessBackendNoTitle : Backend := fun _ _ =>
  .resp { status := 200, jsonBody := some witnessDetailNoTitleBody }

/-- Witness for C5: the missing `title` produces a validation `YapiError`
with no business code whose message names the path `data.title`. -/
theorem c5_witness :
    (YapiService.request "https://yapi.example.com/api" "token123" witnessBackendNoTitle
        "/interface/get" (YapiResponseSchemaChk YapiInterfaceDetailDataSchemaChk)
        [("id", some 42)]).1
      = .error { message := "YAPI response validation failed for " ++ "/interface/get"
                   ++ ". Details: " ++ validationDetails [⟨[.key "data", .key "title"], "Required"⟩],
                 errcode := none, status := some 200,
                 responseBody := some witnessDetailNoTitleBody,
                 zodIssues := [⟨[.key "data", .key "title"], "Required"⟩] }
    ∧ ContainsStr ("YAPI response validation failed for " ++ "/interface/get"
          ++ ". Details: " ++ validationDetails [⟨[.key "data", .key "title"], "Required"⟩])
        ("Path: " ++ pathJoin [.key "data", .key "title"] ++ ", Message: " ++ "Required") := by
  have h := c5_schema_mismatch_is_distinct_validation_failure.1
    "https://yapi.example.com/api" "token123" witnessBackendNoTitle "/interface/get"
    (YapiResponseSchemaChk YapiInterfaceDetailDataSchemaChk) [("id", some 42)]
    { status := 200, jsonBody := some witnessDetailNoTitleBody }
    witnessDetailNoTitleBody [⟨[.key "data", .key "title"], "Required"⟩]
    ((YapiResponseSchemaChk YapiInterfaceDetailDataSchemaChk witnessDetailNoTitleBody).2)
    rfl (by decide) (by decide) rfl (by decide) rfl (by simp)
  exact ⟨h.1, h.2 ⟨[.key "data", .key "title"], "Required"⟩ (by simp)⟩

/-- C6: on the single streaming endpoint, a request without a truthy
session id that is not an initialize POST is rejected with HTTP 400 and a
structured JSON-RPC error body; a request bearing a session id absent from
the routing table — whatever its verb, DELETE included — is rejected with
HTTP 404 and a structured JSON-RPC error body; and every such body carries
the `jsonrpc` and `error` members. The handler returns an outcome for
every input, so the server keeps running. -/
theorem c6_streaming_endpoint_rejects_bad_sessions :
    (∀ (method : String) (sessionId : Option String) (table : List String) (bodyIsInit : Bool),
        sidTruthy sessionId = false →
        (method ≠ "POST" ∨ bodyIsInit = false) →
        ∃ msg, handleMcpEndpoint method sessionId table bodyIsInit
          = .reject 400 (jsonRpcErrorBody (-32000) msg))
    ∧ (∀ (method s : String) (table : List String) (bodyIsInit : Bool),
        s ≠ "" →
        table.contains s = false →
        handleMcpEndpoint method (some s) table bodyIsInit
          = .reject 404 (jsonRpcErrorBody (-32000) "Not Found: Invalid or expired session ID."))
    ∧ (∀ (code : Int) (msg : String),
        jsonLookup (jsonRpcErrorBody code msg) "jsonrpc" = some (.str "2.0")
        ∧ jsonLookup (jsonRpcErrorBody code msg) "error"
            = some (.obj [("code", .num code), ("message", .str msg)])) := by
  refine ⟨?_, ?_, ?_⟩
  · intro method sessionId table bodyIsInit hsid hor
    by_cases hm : method = "POST"
    · subst hm
      have hinit : bodyIsInit = false := by
        rcases hor with h | h
        · exact absurd rfl h
        · exact h
      subst hinit
      refine ⟨"Bad Request: Invalid request combination.", ?_⟩
      simp [handleMcpEndpoint, hsid]
    · have hm2 : (method == "POST") = false := beq_eq_false_iff_ne.mpr hm
      refine ⟨"Bad Request: Mcp-Session-Id header required for this request.", ?_⟩
      simp [handleMcpEndpoint, hsid, hm2, hm]
  · intro method s table bodyIsInit hs htab
    have hsid : sidTruthy (some s) = true := by simpa [sidTruthy] using hs
    have hmem : s ∉ table := by simpa using htab
    simp [handleMcpEndpoint, hsid, hmem]
  · intro code msg
    exact ⟨rfl, rfl⟩

/-- Witness for C6: a DELETE with unknown session id `abc` on an empty
routing table is rejected 404; a GET without a session id is rejected 400;
both bodies are structured JSON-RPC errors. -/
theorem c6_witness :
    handleMcpEndpoint "DELETE" (some "abc") [] false
      = .reject 404 (jsonRpcErrorBody (-32000) "Not Found: Invalid or expired session ID.")
    ∧ (∃ msg, handleMcpEndpoint "GET" none [] false
        = .reject 400 (jsonRpcErrorBody (-32000) msg))
    ∧ jsonLookup (jsonRpcErrorBody (-32000) "Not Found: Invalid or expired session ID.") "jsonrpc"
        = some (.str "2.0") := by
  refine ⟨?_, ?_, ?_⟩
  · exact c6_streaming_endpoint_rejects_bad_sessions.2.1 "DELETE" "abc" [] false
      (by decide) (by decide)
  · exact c6_streaming_endpoint_rejects_bad_sessions.1 "GET" none [] false rfl
      (Or.inl (by decide))
  · exact (c6_streaming_endpoint_rejects_bad_sessions.2.2 (-32000)
      "Not Found: Invalid or expired session ID.").1

/-- C7: invoking `yapi_list_interfaces_by_category` with only `category_id`
issues the same backend call and produces the same Invocation Result as
invoking it with the same `category_id` together with `page = 1` and
`limit = 10`, for every backend behavior and every `category_id`. -/
theorem c7_list_defaults_equal_explicit :
    ∀ (parse : String → Option Json) (svc : YapiServiceState) (backend : Backend) (c : Int),
      handleCallTool parse svc backend "yapi_list_interfaces_by_category"
        (some (.obj [("category_id", .num c)]))
      = handleCallTool parse svc backend "yapi_list_interfaces_by_category"
        (some (.obj [("category_id", .num c), ("page", .num 1), ("limit", .num 10)])) := by
  intro parse svc backend c
  have hparse : ListInterfacesByCategoryArgsSchemaParse (some (.obj [("category_id", .num c)]))
      = ListInterfacesByCategoryArgsSchemaParse
          (some (.obj [("category_id", .num c), ("page", .num 1), ("limit", .num 10)])) := by
    by_cases hc : c > 0
    · simp [ListInterfacesByCategoryArgsSchemaParse, posIntField, posIntFieldDefault,
        checkPosInt, lookupField, hc]
    · simp [ListInterfacesByCategoryArgsSchemaParse, posIntField, posIntFieldDefault,
        checkPosInt, lookupField, hc]
  show listBranch svc backend _ = listBranch svc backend _
  rw [hparse]

lemma lookupField_upd_same (fs : List (String × Json)) (k : String) (f : Json → Json) :
    lookupField (fs.map (updEntry k f)) k = (lookupField fs k).map f := by
  induction fs with
  | nil => rfl
  | cons kv rest ih =>
    obtain ⟨k1, v1⟩ := kv
    by_cases h : k1 = k
    · subst h
      have e1 : updEntry k1 f (k1, v1) = (k1, f v1) := by simp [updEntry]
      rw [List.map_cons, e1]
      simp [lookupField]
    · have e1 : updEntry k f (k1, v1) = (k1, v1) := by simp [updEntry, h]
      rw [List.map_cons, e1]
      simp [lookupField, h, ih]

lemma lookupField_upd_other (fs : List (String × Json)) (k k2 : String) (f : Json → Json)
    (h : k2 ≠ k) :
    lookupField (fs.map (updEntry k f)) k2 = lookupField fs k2 := by
  induction fs with
  | nil => rfl
  | cons kv rest ih =>
    obtain ⟨k1, v1⟩ := kv
    by_cases hk : k1 = k
    · subst hk
      have hne : ¬ k1 = k2 := fun hh => h hh.symm
      have e1 : updEntry k1 f (k1, v1) = (k1, f v1) := by simp [updEntry]
      rw [List.map_cons, e1]
      simp [lookupField, hne, ih]
    · have e1 : updEntry k f (k1, v1) = (k1, v1) := by simp [updEntry, hk]
      rw [List.map_cons, e1]
      by_cases hk2 : k1 = k2
      · simp [lookupField, hk2]
      · simp [lookupField, hk2, ih]

lemma jsonLookup_updField_same (o : Json) (k : String) (f : Json → Json) :
    jsonLookup (updField o k f) k = (jsonLookup o k).map f := by
  cases o <;> simp [updField, jsonLookup, lookupField_upd_same]

lemma jsonLookup_updField_other (o : Json) (k k' : String) (f : Json → Json) (h : k' ≠ k) :
    jsonLookup (updField o k f) k' = jsonLookup o k' := by
  cases o <;> simp [updField, jsonLookup, lookupField_upd_other _ _ _ _ h]

/-- C8: a successful interface-details call returns only the inner data
payload, with `res_body` and `req_body_other` passed through the
opportunistic re-parse: when such a field is a non-empty string whose
trimmed form has object or array delimiters and `JSON.parse` succeeds, the
parsed value replaces it; on parse failure, other delimiters, an empty
string or a null the field is unchanged (and the call still succeeds);
every other field of the payload is untouched. -/
theorem c8_details_normalizes_string_bodies :
    (∀ (parse : String → Option Json) (svc : YapiServiceState) (backend : Backend)
        (interfaceId : Int) (resp : Json),
        (YapiService.request svc.apiBase svc.token backend "/interface/get"
            (YapiResponseSchemaChk YapiInterfaceDetailDataSchemaChk)
            [("id", some interfaceId)]).1 = .ok resp →
        jsonLookup resp "errcode" = some (.num 0) →
        truthyOpt (jsonLookup resp "data") = true →
        (YapiService.getInterfaceDetails parse svc backend interfaceId).1
          = .ok (normalizeDetailData parse ((jsonLookup resp "data").getD .null)))
    ∧ (∀ (parse : String → Option Json) (d : Json) (k : String) (s : String) (j : Json),
        (k = "res_body" ∨ k = "req_body_other") →
        jsonLookup d k = some (.str s) →
        s ≠ "" →
        looksLikeJson (jsTrim s) = true →
        parse (jsTrim s) = some j →
        jsonLookup (normalizeDetailData parse d) k = some j)
    ∧ (∀ (parse : String → Option Json) (d : Json) (k : String) (s : String),
        (k = "res_body" ∨ k = "req_body_other") →
        jsonLookup d k = some (.str s) →
        s ≠ "" →
        (looksLikeJson (jsTrim s) = false ∨ parse (jsTrim s) = none) →
        jsonLookup (normalizeDetailData parse d) k = some (.str s))
    ∧ (∀ (parse : String → Option Json) (d : Json) (k : String) (v : Json),
        (k = "res_body" ∨ k = "req_body_other") →
        jsonLookup d k = some v →
        (v = .null ∨ v = .str "" ∨ ∀ s, v ≠ .str s) →
        jsonLookup (normalizeDetailData parse d) k = some v)
    ∧ (∀ (parse : String → Option Json) (d : Json) (k : String),
        k ≠ "res_body" → k ≠ "req_body_other" →
        jsonLookup (normalizeDetailData parse d) k = jsonLookup d k) := by
  have hfield : ∀ (parse : String → Option Json) (d : Json) (k : String),
      (k = "res_body" ∨ k = "req_body_other") →
      jsonLookup (normalizeDetailData parse d) k
        = (jsonLookup d k).map (tryParseJsonString parse) := by
    intro parse d k hk
    rcases hk with rfl | rfl
    · rw [normalizeDetailData, jsonLookup_updField_other _ _ _ _ (by decide),
        jsonLookup_updField_same]
    · rw [normalizeDetailData, jsonLookup_updField_same,
        jsonLookup_updField_other _ _ _ _ (by decide)]
  refine ⟨?_, ?_, ?_, ?_, ?_⟩
  · intro parse svc backend interfaceId resp hreq hcode hdata
    simp only [YapiService.getInterfaceDetails, hreq]
    have hz : errcodeZeroAndData resp = true := by
      simp [errcodeZeroAndData, hcode, hdata]
    simp [hz]
  · intro parse d k s j hk hlook hs hlooks hparse
    rw [hfield parse d k hk, hlook]
    simp [tryParseJsonString, hs, hlooks, hparse]
  · intro parse d k s hk hlook hs hbad
    rw [hfield parse d k hk, hlook]
    rcases hbad with h | h
    · simp [tryParseJsonString, hs, h]
    · simp [tryParseJsonString, hs, h]
  · intro parse d k v hk hlook hv
    rw [hfield parse d k hk, hlook]
    rcases hv with rfl | rfl | h
    · rfl
    · rfl
    · cases v with
      | str s => exact absurd rfl (h s)
      | null => rfl
      | bool b => rfl
      | num n => rfl
      | arr xs => rfl
      | obj fs => rfl
  · intro parse d k h1 h2
    rw [normalizeDetailData, jsonLookup_updField_other _ _ _ _ h2,
      jsonLookup_updField_other _ _ _ _ h1]

/-- JSON.parse model for the C8 witness: parses exactly the text [1,2]. -/
def witnessParseArr : String → Option Json :=
  fun s => if s = "[1,2]" then some (.arr [.num 1, .num 2]) else none

/-- Details response body used by the C8 witness: `res_body` holds a
string-encoded JSON array, `req_body_other` holds a string with other
delimiters. -/
def witnessDetailOKBody : Json :=
  .obj [("errcode", .num 0), ("errmsg", .str "succ"),
        ("data", .obj [("_id", .num 42), ("method", .str "GET"), ("catid", .num 11),
                       ("title", .str "Pet"), ("path", .str "/pet/42"), ("project_id", .num 5),
                       ("uid", .num 9), ("add_time", .num 0), ("up_time", .num 0),
                       ("res_body", .str " [1,2] "), ("req_body_other", .str "plain text")])]

/-- Backend returning the well-formed details body. -/
def witnessBackendDetails : Backend := fun _ _ =>
  .resp { status := 200, jsonBody := some witnessDetailOKBody }

/-- Witness for C8 at concrete inputs: the call succeeds returning the
normalized data payload; the string-encoded `res_body` is replaced by the
parsed array; the non-JSON-looking `req_body_other` is unchanged; an
unrelated field is untouched. -/
theorem c8_witness :
    (YapiService.getInterfaceDetails witnessParseArr witnessSvc witnessBackendDetails 42).1
      = .ok (normalizeDetailData witnessParseArr
          ((jsonLookup ((YapiResponseSchemaChk YapiInterfaceDetailDataSchemaChk
              witnessDetailOKBody).2) "data").getD .null))
    ∧ jsonLookup (normalizeDetailData witnessParseArr
          ((jsonLookup ((YapiResponseSchemaChk YapiInterfaceDetailDataSchemaChk
              witnessDetailOKBody).2) "data").getD .null)) "res_body"
        = some (.arr [.num 1, .num 2])
    ∧ jsonLookup (normalizeDetailData witnessParseArr
          ((jsonLookup ((YapiResponseSchemaChk YapiInterfaceDetailDataSchemaChk
              witnessDetailOKBody).2) "data").getD .null)) "req_body_other"
        = some (.str "plain text")
    ∧ jsonLookup (normalizeDetailData witnessParseArr
          ((jsonLookup ((YapiResponseSchemaChk YapiInterfaceDetailDataSchemaChk
              witnessDetailOKBody).2) "data").getD .null)) "title"
        = some (.str "Pet") := by
  refine ⟨?_, ?_, ?_, ?_⟩
  · exact c8_details_normalizes_string_bodies.1 witnessParseArr witnessSvc witnessBackendDetails
      42 ((YapiResponseSchemaChk YapiInterfaceDetailDataSchemaChk witnessDetailOKBody).2)
      rfl rfl (by decide)
  · exact c8_details_normalizes_string_bodies.2.1 witnessParseArr
      ((jsonLookup ((YapiResponseSchemaChk YapiInterfaceDetailDataSchemaChk
          witnessDetailOKBody).2) "data").getD .null)
      "res_body" " [1,2] " (.arr [.num 1, .num 2]) (Or.inl rfl) rfl (by decide) (by decide) rfl
  · exact c8_details_normalizes_string_bodies.2.2.1 witnessParseArr
      ((jsonLookup ((YapiResponseSchemaChk YapiInterfaceDetailDataSchemaChk
          witnessDetailOKBody).2) "data").getD .null)
      "req_body_other" "plain text" (Or.inr rfl) rfl (by decide) (Or.inl (by decide))
  · exact c8_details_normalizes_string_bodies.2.2.2.2 witnessParseArr
      ((jsonLookup ((YapiResponseSchemaChk YapiInterfaceDetailDataSchemaChk
          witnessDetailOKBody).2) "data").getD .null)
      "title" (by decide) (by decide)

/-- C9: constructing the backend service with a missing or empty base URL
or token, or an unparseable base URL, raises a `ConfigurationError`, and a
construction failure prevents the process from entering either session
model; a valid base URL whose path is neither empty nor a bare slash is
reduced to scheme and host with a warning; otherwise only a trailing slash
is removed, with no warning. -/
theorem c9_construction_validates_configuration :
    (∀ (parseURL : String → Option URLParts) (token : Option String),
        YapiService.construct parseURL none token
          = .error ⟨"YAPI_BASE_URL environment variable is not configured."⟩
        ∧ YapiService.construct parseURL (some "") token
          = .error ⟨"YAPI_BASE_URL environment variable is not configured."⟩)
    ∧ (∀ (parseURL : String → Option URLParts) (b : String), b ≠ "" →
        YapiService.construct parseURL (some b) none
          = .error ⟨"YAPI_PROJECT_TOKEN environment variable is not configured."⟩
        ∧ YapiService.construct parseURL (some b) (some "")
          = .error ⟨"YAPI_PROJECT_TOKEN environment variable is not configured."⟩)
    ∧ (∀ (parseURL : String → Option URLParts) (b t : String), b ≠ "" → t ≠ "" →
        parseURL b = none →
        YapiService.construct parseURL (some b) (some t)
          = .error ⟨"Invalid YAPI_BASE_URL provided: \"" ++ b
              ++ "\". It should be a valid URL like \"https://yapi.example.com\"."⟩)
    ∧ (∀ (parseURL : String → Option URLParts) (b t : String) (u : URLParts),
        b ≠ "" → t ≠ "" → parseURL b = some u → u.pathname ≠ "/" → u.pathname ≠ "" →
        ∃ w, YapiService.construct parseURL (some b) (some t)
          = .ok ({ baseUrl := u.protocol ++ "//" ++ u.host,
                   apiBase := u.protocol ++ "//" ++ u.host ++ "/api", token := t }, [w]))
    ∧ (∀ (parseURL : String → Option URLParts) (b t : String) (u : URLParts),
        b ≠ "" → t ≠ "" → parseURL b = some u → (u.pathname = "/" ∨ u.pathname = "") →
        YapiService.construct parseURL (some b) (some t)
          = .ok ({ baseUrl := if jsEndsWith b "/" then b.dropRight 1 else b,
                   apiBase := (if jsEndsWith b "/" then b.dropRight 1 else b) ++ "/api",
                   token := t }, []))
    ∧ (∀ (parseURL : String → Option URLParts) (baseUrl token : Option String)
        (mode : String) (port : Nat) (e : ConfigurationError),
        YapiService.construct parseURL baseUrl token = .error e →
        mainStartup parseURL baseUrl token mode port = .exited 1) := by
  refine ⟨?_, ?_, ?_, ?_, ?_, ?_⟩
  · intro parseURL token
    exact ⟨rfl, rfl⟩
  · intro parseURL b hb
    have h1 : strTruthy (some b) = true := by simpa [strTruthy] using hb
    constructor <;> simp [YapiService.construct, h1, strTruthy, hb]
  · intro parseURL b t hb ht hp
    have h1 : strTruthy (some b) = true := by simpa [strTruthy] using hb
    have h2 : strTruthy (some t) = true := by simpa [strTruthy] using ht
    simp [YapiService.construct, h1, h2, hp]
  · intro parseURL b t u hb ht hp hpath1 hpath2
    have h1 : strTruthy (some b) = true := by simpa [strTruthy] using hb
    have h2 : strTruthy (some t) = true := by simpa [strTruthy] using ht
    have hc : (u.pathname != "/" && u.pathname != "") = true := by
      simp [hpath1, hpath2]
    refine ⟨"[YapiService Config Warning] The provided YAPI_BASE_URL \"" ++ b
      ++ "\" includes a path (\"" ++ u.pathname
      ++ "\"). It should typically be just the base domain (e.g., \"https://yapi.example.com\"). Removing the path.", ?_⟩
    simp only [YapiService.construct, h1, h2, Option.getD_some, hp, Bool.not_true,
      Bool.false_eq_true, if_false, hc, if_true]
  · intro parseURL b t u hb ht hp hpath
    have h1 : strTruthy (some b) = true := by simpa [strTruthy] using hb
    have h2 : strTruthy (some t) = true := by simpa [strTruthy] using ht
    have hc : (u.pathname != "/" && u.pathname != "") = false := by
      rcases hpath with h | h <;> simp [h]
    simp only [YapiService.construct, h1, h2, Option.getD_some, hp, Bool.not_true,
      Bool.false_eq_true, if_false, hc]
  · intro parseURL baseUrl token mode port e h
    simp [mainStartup, h]

/-- URL parser model mapping every input to a URL with a sub-path. -/
def witnessParseURLSub : String → Option URLParts :=
  fun _ => some ⟨"https:", "yapi.example.com", "/sub/path"⟩

/-- URL parser model mapping every input to a URL with a bare slash path. -/
def witnessParseURLRoot : String → Option URLParts :=
  fun _ => some ⟨"https:", "yapi.example.com", "/"⟩

/-- Witness for C9: a sub-path base URL is stripped to scheme and host
with one warning; a trailing slash alone is removed with no warning; a
missing base URL is a `ConfigurationError`; and with a missing base URL
the process exits before entering a session model. -/
theorem c9_witness :
    (∃ w, YapiService.construct witnessParseURLSub
        (some "https://yapi.example.com/sub/path") (some "tok")
      = .ok ({ baseUrl := "https:" ++ "//" ++ "yapi.example.com",
               apiBase := "https:" ++ "//" ++ "yapi.example.com" ++ "/api",
               token := "tok" }, [w]))
    ∧ YapiService.construct witnessParseURLRoot
        (some "https://yapi.example.com/") (some "tok")
      = .ok ({ baseUrl := "https://yapi.example.com",
               apiBase := "https://yapi.example.com" ++ "/api", token := "tok" }, [])
    ∧ YapiService.construct witnessParseURLSub none (some "tok")
      = .error ⟨"YAPI_BASE_URL environment variable is not configured."⟩
    ∧ mainStartup witnessParseURLSub none (some "tok") "stdio" 3000 = .exited 1 := by
  refine ⟨?_, ?_, ?_, ?_⟩
  · exact c9_construction_validates_configuration.2.2.2.1 witnessParseURLSub
      "https://yapi.example.com/sub/path" "tok" ⟨"https:", "yapi.example.com", "/sub/path"⟩
      (by decide) (by decide) rfl (by decide) (by decide)
  · exact c9_construction_validates_configuration.2.2.2.2.1 witnessParseURLRoot
      "https://yapi.example.com/" "tok" ⟨"https:", "yapi.example.com", "/"⟩
      (by decide) (by decide) rfl (Or.inl rfl)
  · exact (c9_construction_validates_configuration.1 witnessParseURLSub (some "tok")).1
  · exact c9_construction_validates_configuration.2.2.2.2.2 witnessParseURLSub none (some "tok")
      "stdio" 3000 ⟨"YAPI_BASE_URL environment variable is not configured."⟩
      (c9_construction_validates_configuration.1 witnessParseURLSub (some "tok")).1

/-- C10: under a 2xx parsed JSON response, the business-failure branch of
the Backend Client fires exactly when the body is an object with an
`errcode` key whose value is not the number 0 (then the raised error
carries that value as its code); otherwise the request proceeds to schema
validation, succeeding on a clean shape and failing with an error that
carries no business code on any other shape — and the response wrapper
schema rejects every body lacking an `errcode`. -/
theorem c10_business_branch_fires_only_on_nonzero_errcode :
    (∀ (apiBase token : String) (backend : Backend) (apiPath : String)
        (schemaChk : Json → List ZIssue × Json) (params : List (String × Option Int))
        (r : HttpResponse) (body : Json),
        backend (apiBase ++ apiPath) (buildQuery token params) = .resp r →
        r.isOk = true → ctIncludesJson r.contentType = true → r.jsonBody = some body →
        isBusinessErrorBody body = true →
        (YapiService.request apiBase token backend apiPath schemaChk params).1
          = .error { message := jsOrElseStr (jsonLookup body "errmsg")
                       ("YAPI operation failed with code " ++ jsStringOpt (jsonLookup body "errcode")),
                     errcode := jsonLookup body "errcode",
                     status := some r.status, responseBody := some body })
    ∧ (∀ (apiBase token : String) (backend : Backend) (apiPath : String)
        (schemaChk : Json → List ZIssue × Json) (params : List (String × Option Int))
        (r : HttpResponse) (body : Json) (issues : List ZIssue) (out : Json),
        backend (apiBase ++ apiPath) (buildQuery token params) = .resp r →
        r.isOk = true → ctIncludesJson r.contentType = true → r.jsonBody = some body →
        isBusinessErrorBody body = false →
        schemaChk body = (issues, out) →
        (issues = [] →
          (YapiService.request apiBase token backend apiPath schemaChk params).1 = .ok out)
        ∧ (issues ≠ [] → ∃ e : YapiError,
            (YapiService.request apiBase token backend apiPath schemaChk params).1 = .error e
            ∧ e.errcode = none))
    ∧ (∀ body : Json, isBusinessErrorBody body = true ↔
        ∃ fs v, body = .obj fs ∧ lookupField fs "errcode" = some v ∧ v ≠ .num 0)
    ∧ (∀ (dataChk : Chk) (body : Json), jsonLookup body "errcode" = none →
        (YapiResponseSchemaChk dataChk body).1 ≠ []) := by
  refine ⟨?_, ?_, ?_, ?_⟩
  · intro apiBase token backend apiPath schemaChk params r body hb hok hct hjson hbiz
    simp only [YapiService.request, hb]
    simp only [acquireBody, hct, if_true, hjson, hok, Bool.not_true, Bool.false_eq_true,
      if_false, hbiz, if_true]
  · intro apiBase token backend apiPath schemaChk params r body issues out
      hb hok hct hjson hbiz hschema
    constructor
    · intro hnil
      subst hnil
      simp only [YapiService.request, hb]
      simp only [acquireBody, hct, if_true, hjson, hok, Bool.not_true, Bool.false_eq_true,
        if_false, hbiz, hschema]
    · intro hne
      cases issues with
      | nil => exact absurd rfl hne
      | cons a as =>
        refine ⟨{ message := ("YAPI response validation failed for " ++ apiPath
              ++ ". Details: " ++ validationDetails (a :: as)),
                  status := some r.status, responseBody := some body,
                  zodIssues := a :: as }, ?_, rfl⟩
        simp only [YapiService.request, hb]
        simp only [acquireBody, hct, if_true, hjson, hok, Bool.not_true, Bool.false_eq_true,
          if_false, hbiz, hschema]
  · intro body
    constructor
    · intro h
      cases body with
      | obj fs =>
        cases hl : lookupField fs "errcode" with
        | none => simp [isBusinessErrorBody, hl] at h
        | some v =>
          refine ⟨fs, v, rfl, hl, ?_⟩
          cases v with
          | num n =>
            simp only [isBusinessErrorBody, hl] at h
            intro heq
            cases heq
            simp at h
          | null => exact fun heq => Json.noConfusion heq
          | bool b => exact fun heq => Json.noConfusion heq
          | str s => exact fun heq => Json.noConfusion heq
          | arr xs => exact fun heq => Json.noConfusion heq
          | obj fs2 => exact fun heq => Json.noConfusion heq
      | null => simp [isBusinessErrorBody] at h
      | bool b => simp [isBusinessErrorBody] at h
      | num n => simp [isBusinessErrorBody] at h
      | str s => simp [isBusinessErrorBody] at h
      | arr xs => simp [isBusinessErrorBody] at h
    · rintro ⟨fs, v, rfl, hl, hv⟩
      cases v with
      | num n =>
        have hn : n ≠ 0 := fun h0 => hv (by rw [h0])
        simp [isBusinessErrorBody, hl, hn]
      | null => simp [isBusinessErrorBody, hl]
      | bool b => simp [isBusinessErrorBody, hl]
      | str s => simp [isBusinessErrorBody, hl]
      | arr xs => simp [isBusinessErrorBody, hl]
      | obj fs2 => simp [isBusinessErrorBody, hl]
  · intro dataChk body hcode
    cases body with
    | obj fs =>
      have hl : lookupField fs "errcode" = none := by simpa [jsonLookup] using hcode
      simp [YapiResponseSchemaChk, buildObj, fReq, hl]
    | null => simp [YapiResponseSchemaChk]
    | bool b => simp [YapiResponseSchemaChk]
    | num n => simp [YapiResponseSchemaChk]
    | str s => simp [YapiResponseSchemaChk]
    | arr xs => simp [YapiResponseSchemaChk]

/-- Backend returning 200 with a body whose errcode is a string. -/
def witnessBackendStrCode : Backend := fun _ _ =>
  .resp { status := 200, jsonBody := some (.obj [("errcode", .str "bad")]) }

/-- Backend returning 200 with a JSON array body. -/
def witnessBackendArr : Backend := fun _ _ =>
  .resp { status := 200, jsonBody := some (.arr []) }

/-- Witness for C10: an object body with a non-numeric `errcode` fires the
business branch carrying that value; an array body is never a business
failure and is rejected by schema validation with no business code; a body
without `errcode` is rejected by the wrapper schema. -/
theorem c10_witness :
    (YapiService.request "https://yapi.example.com/api" "token123" witnessBackendStrCode
        "/project/get" (YapiResponseSchemaChk YapiProjectSchemaChk) []).1
      = .error { message := jsOrElseStr (jsonLookup (.obj [("errcode", .str "bad")]) "errmsg")
                   ("YAPI operation failed with code "
                     ++ jsStringOpt (jsonLookup (.obj [("errcode", .str "bad")]) "errcode")),
                 errcode := jsonLookup (.obj [("errcode", .str "bad")]) "errcode",
                 status := some 200, responseBody := some (.obj [("errcode", .str "bad")]) }
    ∧ (∃ e : YapiError,
        (YapiService.request "https://yapi.example.com/api" "token123" witnessBackendArr
            "/project/get" (YapiResponseSchemaChk YapiProjectSchemaChk) []).1 = .error e
        ∧ e.errcode = none)
    ∧ isBusinessErrorBody (.obj [("errcode", .str "bad")]) = true
    ∧ (YapiResponseSchemaChk YapiProjectSchemaChk (.obj [("foo", .num 1)])).1 ≠ [] := by
  refine ⟨?_, ?_, ?_, ?_⟩
  · exact c10_business_branch_fires_only_on_nonzero_errcode.1 "https://yapi.example.com/api"
      "token123" witnessBackendStrCode "/project/get" (YapiResponseSchemaChk YapiProjectSchemaChk)
      [] { status := 200, jsonBody := some (.obj [("errcode", .str "bad")]) }
      (.obj [("errcode", .str "bad")]) rfl (by decide) (by decide) rfl (by decide)
  · exact (c10_business_branch_fires_only_on_nonzero_errcode.2.1 "https://yapi.example.com/api"
      "token123" witnessBackendArr "/project/get" (YapiResponseSchemaChk YapiProjectSchemaChk)
      [] { status := 200, jsonBody := some (.arr []) } (.arr [])
      [⟨[], expectedMsg "object" (.arr [])⟩] (.arr [])
      rfl (by decide) (by decide) rfl (by decide) rfl).2 (by simp)
  · exact (c10_business_branch_fires_only_on_nonzero_errcode.2.2.1
      (.obj [("errcode", .str "bad")])).mpr
      ⟨[("errcode", .str "bad")], .str "bad", rfl, rfl, fun h => Json.noConfusion h⟩
  · exact c10_business_branch_fires_only_on_nonzero_errcode.2.2.2 YapiProjectSchemaChk
      (.obj [("foo", .num 1)]) rfl
